import Mathlib

/-!
Verification of the Geometry & Material Ledger engine of the
ECAL_HCAL_DNN_EnergyRegression repository.

The embedding translates `helpers/Trackers.py` (material catalog, cost/X0/lambdaI
ledger) and `Design.py` (the three calorimeter design builders) into Lean.
Python floats are modelled by exact rationals; Python ints by Int; Python dicts
keyed by material identifier by insertion-ordered association lists (for the
mutable per-material accumulators) or by total lookup functions into Option
(for the two module-level catalog dicts). A Python KeyError raised by an
operation is modelled by an Except value whose error carries the state the
mutable ledger had at the moment of the raise. Rational division by zero is
total in Lean (it yields 0) whereas Python raises ZeroDivisionError; the
theorems below never rely on a division-by-zero value.
-/

/-- Material properties entry of `MATERIAL_PROP`: radiation length X0 and
nuclear interaction length lambdaI, both in cm. -/
structure MatProps where
  X0_cm : ℚ
  lambdaI_cm : ℚ
deriving DecidableEq

/-- The material price list `COST_CHF_PER_CM_M2` of Trackers.py
(CHF per cm of thickness per square metre). -/
def COST_CHF_PER_CM_M2 : String → Option ℚ := fun m =>
  if m = "G4_POLYSTYRENE" then some 0
  else if m = "G4_Pb" then some 300
  else if m = "G4_Fe" then some 50
  else if m = "G4_W" then some 6000
  else if m = "G4_Cu" then some 800
  else if m = "G4_BRASS" then some 200
  else if m = "G4_PbWO4" then some 30000
  else none

/-- The material property table `MATERIAL_PROP` of Trackers.py. -/
def MATERIAL_PROP : String → Option MatProps := fun m =>
  if m = "G4_POLYSTYRENE" then some ⟨212/5, 77⟩
  else if m = "G4_Pb" then some ⟨14/25, 171/10⟩
  else if m = "G4_Fe" then some ⟨44/25, 84/5⟩
  else if m = "G4_W" then some ⟨7/20, 48/5⟩
  else if m = "G4_Cu" then some ⟨143/100, 153/10⟩
  else if m = "G4_BRASS" then some ⟨3/2, 15⟩
  else if m = "G4_PbWO4" then some ⟨89/100, 207/10⟩
  else none

/-- The convenience map `LAMBDA_INT_CM` (comprehension over `MATERIAL_PROP`
taken at import time; Design.py reads interaction lengths from it). -/
def LAMBDA_INT_CM (m : String) : Option ℚ :=
  (MATERIAL_PROP m).map MatProps.lambdaI_cm

/-- The convenience map `X0_CM` (comprehension over `MATERIAL_PROP`). -/
def X0_CM (m : String) : Option ℚ :=
  (MATERIAL_PROP m).map MatProps.X0_cm

/-- The process-wide mutable catalog state: the two module-level dicts of
Trackers.py that `set_price` / `set_material_props` override in place. -/
structure Catalog where
  price : String → Option ℚ
  props : String → Option MatProps

/-- The catalog state at module load (the literal dicts in Trackers.py). -/
def defaultCatalog : Catalog :=
  ⟨COST_CHF_PER_CM_M2, MATERIAL_PROP⟩

/-- `area_rect_m2` of Trackers.py. -/
def area_rect_m2 (width_cm height_cm : ℚ) : ℚ :=
  width_cm * height_cm * (1/10000)

/-- Python dict write `d[m] = d.get(m, 0.0) + v` on an insertion-ordered
association list: an existing key keeps its position, a new key is appended. -/
def bump : List (String × ℚ) → String → ℚ → List (String × ℚ)
  | [], m, v => [(m, v)]
  | (k, x) :: rest, m, v =>
    if k = m then (k, x + v) :: rest else (k, x) :: bump rest m v

/-- Python dict read `d.get(m, 0.0)`. -/
def getD0 : List (String × ℚ) → String → ℚ
  | [], _ => 0
  | (k, x) :: rest, m => if k = m then x else getD0 rest m

/-- Sum of the values of a per-material accumulator dict. -/
def sumVals (d : List (String × ℚ)) : ℚ :=
  (d.map Prod.snd).sum

/-- The `CostTracker` dataclass of Trackers.py: per-material accumulators and
grand totals for length, cost, X0-units and lambdaI-units. -/
structure CostTracker where
  area_m2 : ℚ
  by_material_cm : List (String × ℚ)
  by_material_chf : List (String × ℚ)
  by_material_X0 : List (String × ℚ)
  by_material_lambdaI : List (String × ℚ)
  total_length_cm : ℚ
  total_cost_chf : ℚ
  total_X0 : ℚ
  total_lambdaI : ℚ
deriving DecidableEq

/-- `CostTracker(area_m2)`: dataclass construction with the default (empty /
zero) accumulators. -/
def CostTracker.init (area_m2 : ℚ) : CostTracker :=
  ⟨area_m2, [], [], [], [], 0, 0, 0, 0⟩

/-- `cost_of_layer` of Trackers.py: thickness x area x unit price, KeyError on
an unknown material. -/
def cost_of_layer (cat : Catalog) (thickness_cm : ℚ) (material : String)
    (area_m2 : ℚ) : Except String ℚ :=
  match cat.price material with
  | none => .error ("Unknown material for cost model: " ++ material)
  | some rate => .ok (thickness_cm * area_m2 * rate)

/-- The message of the KeyError `_check_material` raises: the price-list check
comes first, the property-table check second. -/
def addErrMsg (cat : Catalog) (m : String) : String :=
  match cat.price m with
  | none => "Unknown material for cost model: " ++ m
  | some _ => "Missing MATERIAL_PROP entry for: " ++ m

/-- The mutation tail of `CostTracker.add`: bump the four per-material dicts
for `material` and add the same four quantities to the totals. -/
def applyAdd (ct : CostTracker) (material : String)
    (tcm chf x0u liu : ℚ) : CostTracker :=
  { area_m2 := ct.area_m2
    by_material_cm := bump ct.by_material_cm material tcm
    by_material_chf := bump ct.by_material_chf material chf
    by_material_X0 := bump ct.by_material_X0 material x0u
    by_material_lambdaI := bump ct.by_material_lambdaI material liu
    total_length_cm := ct.total_length_cm + tcm
    total_cost_chf := ct.total_cost_chf + chf
    total_X0 := ct.total_X0 + x0u
    total_lambdaI := ct.total_lambdaI + liu }

/-- `CostTracker.add`: `_check_material` first raises on a material missing
from the price list, then on one missing from the property table (before any
accumulator is touched, so the error carries the unchanged tracker); on
success `tcm = thickness_cm * count` is converted and accumulated. -/
def CostTracker.add (cat : Catalog) (ct : CostTracker) (material : String)
    (thickness_cm : ℚ) (count : ℤ) : Except (String × CostTracker) CostTracker :=
  match cat.price material with
  | none => .error ("Unknown material for cost model: " ++ material, ct)
  | some rate =>
    match cat.props material with
    | none => .error ("Missing MATERIAL_PROP entry for: " ++ material, ct)
    | some pr =>
      let tcm := thickness_cm * (count : ℚ)
      .ok (applyAdd ct material tcm (tcm * ct.area_m2 * rate)
        (tcm / pr.X0_cm) (tcm / pr.lambdaI_cm))

/-- `CostTracker.add_pair`: one `add` per constituent material, each with the
full repetition count. -/
def CostTracker.add_pair (cat : Catalog) (ct : CostTracker)
    (layers : String × ℚ × String × ℚ) (count : ℤ) :
    Except (String × CostTracker) CostTracker :=
  match CostTracker.add cat ct layers.1 layers.2.1 count with
  | .error e => .error e
  | .ok ct1 => CostTracker.add cat ct1 layers.2.2.1 layers.2.2.2 count

/-- One pass of the inner loop of `add_period`: `add(mat, tcm, count=1)` for
each entry of the period spec, in order. -/
def addSpecPass (cat : Catalog) (ct : CostTracker) :
    List (String × ℚ) → Except (String × CostTracker) CostTracker
  | [] => .ok ct
  | (m, t) :: rest =>
    match CostTracker.add cat ct m t 1 with
    | .error e => .error e
    | .ok ct1 => addSpecPass cat ct1 rest

/-- The outer loop of `add_period`, running `k` full passes of the spec. -/
def addPeriodAux (cat : Catalog) (spec : List (String × ℚ)) :
    Nat → CostTracker → Except (String × CostTracker) CostTracker
  | 0, ct => .ok ct
  | k + 1, ct =>
    match addSpecPass cat ct spec with
    | .error e => .error e
    | .ok ct1 => addPeriodAux cat spec k ct1

/-- `CostTracker.add_period`: `for _ in range(int(count))`, i.e. `count.toNat`
passes over the period spec. -/
def CostTracker.add_period (cat : Catalog) (ct : CostTracker)
    (spec : List (String × ℚ)) (count : ℤ) :
    Except (String × CostTracker) CostTracker :=
  addPeriodAux cat spec count.toNat ct

/-- `CostTracker.set_price`: overrides the module-level price dict in place;
the tracker itself is untouched by the method body. -/
def CostTracker.set_price (cat : Catalog) (ct : CostTracker) (material : String)
    (chf_per_cm_m2 : ℚ) : Catalog × CostTracker :=
  (⟨fun m => if m = material then some chf_per_cm_m2 else cat.price m,
    cat.props⟩, ct)

/-- `CostTracker.set_material_props`: overrides the module-level property dict
entry in place; the tracker itself is untouched by the method body. -/
def CostTracker.set_material_props (cat : Catalog) (ct : CostTracker)
    (material : String) (X0_cm lambdaI_cm : ℚ) : Catalog × CostTracker :=
  (⟨cat.price,
    fun m => if m = material then some ⟨X0_cm, lambdaI_cm⟩ else cat.props m⟩, ct)

/-- Stable insertion of a string into an ascending list (for Python
`sorted`). -/
def insertSorted (s : String) : List String → List String
  | [] => [s]
  | t :: rest => if s ≤ t then s :: t :: rest else t :: insertSorted s rest

/-- Python `sorted` on a list of strings (insertion sort). -/
def sortStrings : List String → List String
  | [] => []
  | s :: rest => insertSorted s (sortStrings rest)

/-- The material list of `CostTracker.summary`: the sorted union of the keys
of the four per-material dicts. -/
def summaryMats (ct : CostTracker) : List String :=
  sortStrings ((ct.by_material_cm.map Prod.fst
    ++ ct.by_material_chf.map Prod.fst
    ++ ct.by_material_X0.map Prod.fst
    ++ ct.by_material_lambdaI.map Prod.fst).dedup)

/-- One row of `summary()["by_material"]`. -/
structure MatRow where
  total_cm : ℚ
  total_X0 : ℚ
  total_lambdaI : ℚ
  total_cost_chf : ℚ
  price_chf_per_cm_m2 : ℚ
  X0_cm : ℚ
  lambdaI_cm : ℚ
deriving DecidableEq

/-- The row `summary` builds for one material: the four accumulated quantities
(`.get(m, 0.0)`) plus the catalog values currently in effect; the direct dict
subscripts `COST_CHF_PER_CM_M2[m]` / `MATERIAL_PROP[m]` raise (None here) when
the material has no catalog entry. -/
def summaryRow (cat : Catalog) (ct : CostTracker) (m : String) : Option MatRow :=
  match cat.price m, cat.props m with
  | some price, some pr =>
    some ⟨getD0 ct.by_material_cm m, getD0 ct.by_material_X0 m,
      getD0 ct.by_material_lambdaI m, getD0 ct.by_material_chf m,
      price, pr.X0_cm, pr.lambdaI_cm⟩
  | _, _ => none

/-- The `by_material` mapping of `CostTracker.summary`. -/
def CostTracker.summary_by_material (cat : Catalog) (ct : CostTracker) :
    Option (List (String × MatRow)) :=
  (summaryMats ct).mapM fun m => (summaryRow cat ct m).map fun row => (m, row)

/-- A `Layer` of G4Calo.py: thickness in cm, material identifier, sensitive
flag. -/
structure Layer where
  thickness_cm : ℚ
  material : String
  sensitive : Bool
deriving DecidableEq

/-- The `GeometryDescriptor` of G4Calo.py: a transverse area (1.0 by default)
and the append-only ordered layer list. -/
structure GeometryDescriptor where
  area_m2 : ℚ
  layers : List Layer
deriving DecidableEq

/-- `GeometryDescriptor.addLayer`: appends one layer. -/
def GeometryDescriptor.addLayer (gd : GeometryDescriptor) (thickness_cm : ℚ)
    (material : String) (sensitive : Bool) : GeometryDescriptor :=
  ⟨gd.area_m2, gd.layers ++ [⟨thickness_cm, material, sensitive⟩]⟩

/-- Sum of `layer.thickness_cm` over a layer list (the reduction behind
`GeometryDescriptor.as_specs`'s `total_len_cm`). -/
def sumThick (L : List Layer) : ℚ :=
  (L.map Layer.thickness_cm).sum

/-- A value stored in a builder's `specs` dict: a number, a material-name
string, or a boolean flag. -/
inductive SpecVal where
  | num (q : ℚ)
  | str (s : String)
  | flag (b : Bool)
deriving DecidableEq

/-- Python dict read `specs[key]` on the returned specs mapping. -/
def specGet : List (String × SpecVal) → String → Option SpecVal
  | [], _ => none
  | (k, v) :: rest, key => if k = key then some v else specGet rest key

/-- The shared `add_section` helper closure of Design.py: `n_pairs`
repetitions of [absorber layer (not sensitive), active layer (sensitive
unless overridden)], with `for _ in range(int(n_pairs))` semantics. -/
def sectionLayers (n_pairs : ℤ) (t_abs_cm : ℚ) (absorber : String)
    (t_act_cm : ℚ) (active : String) (sens : Bool) : List Layer :=
  List.flatten (List.replicate n_pairs.toNat
    [⟨t_abs_cm, absorber, false⟩, ⟨t_act_cm, active, sens⟩])

/-- Design variant A, `build_ecal_pbwo4_26X0_then_graded_fe_scint_hcal_200cm_v1`
(cost_tracker=None instance): homogeneous sliced PbWO4 ECAL followed by three
graded Fe/Scint HCAL sections. Python's `ecal_len_cm / int(ecal_slices)`
raises ZeroDivisionError for `ecal_slices = 0`; here rational division is
total. The `LAMBDA_INT_CM[...]` subscripts raise KeyError on an unknown
material in Python; here the missing-key value is read as 0 (the claims below
never depend on that value). -/
def build_ecal_pbwo4_26X0_then_graded_fe_scint_hcal_200cm_v1
    (total_X0 : ℚ) (X0_cm : ℚ) (ecal_slices : ℤ) (ecal_material : String)
    (front_pairs : ℤ) (fe_front sc_front : ℚ)
    (mid_pairs : ℤ) (fe_mid sc_mid : ℚ)
    (back_pairs : ℤ) (fe_back sc_back : ℚ)
    (absorber active : String) (sensitive_active_only : Bool) :
    GeometryDescriptor × List (String × SpecVal) :=
  let ecal_len_cm : ℚ := total_X0 * X0_cm
  let ecal_slice : ℚ := ecal_len_cm / (ecal_slices : ℚ)
  let ecalLayers : List Layer :=
    List.flatten (List.replicate ecal_slices.toNat [⟨ecal_slice, ecal_material, true⟩])
  let hcalLayers : List Layer :=
    sectionLayers front_pairs fe_front absorber sc_front active sensitive_active_only
    ++ sectionLayers mid_pairs fe_mid absorber sc_mid active sensitive_active_only
    ++ sectionLayers back_pairs fe_back absorber sc_back active sensitive_active_only
  let hcal_len_cm : ℚ := (front_pairs : ℚ) * (fe_front + sc_front)
    + (mid_pairs : ℚ) * (fe_mid + sc_mid)
    + (back_pairs : ℚ) * (fe_back + sc_back)
  let total_len_cm : ℚ := ecal_len_cm + hcal_len_cm
  let ecal_lambda : ℚ := ecal_len_cm / ((LAMBDA_INT_CM ecal_material).getD 0)
  let lam_front : ℚ := (front_pairs : ℚ)
    * (fe_front / ((LAMBDA_INT_CM absorber).getD 0)
       + sc_front / ((LAMBDA_INT_CM active).getD 0))
  let lam_mid : ℚ := (mid_pairs : ℚ)
    * (fe_mid / ((LAMBDA_INT_CM absorber).getD 0)
       + sc_mid / ((LAMBDA_INT_CM active).getD 0))
  let lam_back : ℚ := (back_pairs : ℚ)
    * (fe_back / ((LAMBDA_INT_CM absorber).getD 0)
       + sc_back / ((LAMBDA_INT_CM active).getD 0))
  let hcal_lambda : ℚ := lam_front + lam_mid + lam_back
  let total_lambda : ℚ := ecal_lambda + hcal_lambda
  ⟨⟨1, ecalLayers ++ hcalLayers⟩,
   [ ("ecal_len_cm", SpecVal.num ecal_len_cm),
     ("ecal_slice_cm", SpecVal.num ecal_slice),
     ("ecal_lambda", SpecVal.num ecal_lambda),
     ("front_pairs", SpecVal.num (front_pairs : ℚ)),
     ("fe_front", SpecVal.num fe_front), ("sc_front", SpecVal.num sc_front),
     ("mid_pairs", SpecVal.num (mid_pairs : ℚ)),
     ("fe_mid", SpecVal.num fe_mid), ("sc_mid", SpecVal.num sc_mid),
     ("back_pairs", SpecVal.num (back_pairs : ℚ)),
     ("fe_back", SpecVal.num fe_back), ("sc_back", SpecVal.num sc_back),
     ("hcal_len_cm", SpecVal.num hcal_len_cm),
     ("hcal_lambda", SpecVal.num hcal_lambda),
     ("total_len_cm", SpecVal.num total_len_cm),
     ("total_lambda", SpecVal.num total_lambda) ]⟩

/-- Design variant B, `build_pb_scint_ecal_then_graded_fe_scint_hcal_200cm_v2`
(cost_tracker=None instance): Pb/Scint sampling ECAL (the active plate always
sensitive) followed by three graded Fe/Scint HCAL sections. -/
def build_pb_scint_ecal_then_graded_fe_scint_hcal_200cm_v2
    (ecal_pairs : ℤ) (pb_per_pair_cm sc_per_pair_cm : ℚ)
    (ecal_absorber ecal_active : String)
    (front_pairs : ℤ) (fe_front sc_front : ℚ)
    (mid_pairs : ℤ) (fe_mid sc_mid : ℚ)
    (back_pairs : ℤ) (fe_back sc_back : ℚ)
    (absorber active : String) (sensitive_active_only : Bool) :
    GeometryDescriptor × List (String × SpecVal) :=
  let ecalLayers : List Layer :=
    sectionLayers ecal_pairs pb_per_pair_cm ecal_absorber sc_per_pair_cm ecal_active true
  let ecal_len_cm : ℚ := (ecal_pairs : ℚ) * (pb_per_pair_cm + sc_per_pair_cm)
  let hcalLayers : List Layer :=
    sectionLayers front_pairs fe_front absorber sc_front active sensitive_active_only
    ++ sectionLayers mid_pairs fe_mid absorber sc_mid active sensitive_active_only
    ++ sectionLayers back_pairs fe_back absorber sc_back active sensitive_active_only
  let hcal_len_cm : ℚ := (front_pairs : ℚ) * (fe_front + sc_front)
    + (mid_pairs : ℚ) * (fe_mid + sc_mid)
    + (back_pairs : ℚ) * (fe_back + sc_back)
  ⟨⟨1, ecalLayers ++ hcalLayers⟩,
   [ ("ecal_pairs", SpecVal.num (ecal_pairs : ℚ)),
     ("pb_per_pair_cm", SpecVal.num pb_per_pair_cm),
     ("sc_per_pair_cm", SpecVal.num sc_per_pair_cm),
     ("ecal_absorber", SpecVal.str ecal_absorber),
     ("ecal_active", SpecVal.str ecal_active),
     ("ecal_len_cm", SpecVal.num ecal_len_cm),
     ("front_pairs", SpecVal.num (front_pairs : ℚ)),
     ("fe_front", SpecVal.num fe_front), ("sc_front", SpecVal.num sc_front),
     ("mid_pairs", SpecVal.num (mid_pairs : ℚ)),
     ("fe_mid", SpecVal.num fe_mid), ("sc_mid", SpecVal.num sc_mid),
     ("back_pairs", SpecVal.num (back_pairs : ℚ)),
     ("fe_back", SpecVal.num fe_back), ("sc_back", SpecVal.num sc_back),
     ("hcal_len_cm", SpecVal.num hcal_len_cm),
     ("total_len_cm", SpecVal.num (ecal_len_cm + hcal_len_cm)),
     ("ecal_slice_cm", SpecVal.num sc_per_pair_cm) ]⟩

/-- The ECAL layer stack of design variant C: strict [Pb, Scint(sens), PbWO4]
triplets, plus the optional single scint end-cap layer. -/
def tripleEcalLayers (ecal_pairs : ℤ) (pb_cm sc_cm pbwo4_cm : ℚ)
    (add_scint_endcap : Bool) (ecal_pb ecal_scint ecal_pbwo4 : String) :
    List Layer :=
  List.flatten (List.replicate ecal_pairs.toNat
    [⟨pb_cm, ecal_pb, false⟩, ⟨sc_cm, ecal_scint, true⟩,
     ⟨pbwo4_cm, ecal_pbwo4, false⟩])
  ++ (if add_scint_endcap then [⟨sc_cm, ecal_scint, true⟩] else [])

/-- The `ecal_len` accumulator of design variant C. -/
def tripleEcalLen (ecal_pairs : ℤ) (pb_cm sc_cm pbwo4_cm : ℚ)
    (add_scint_endcap : Bool) : ℚ :=
  if add_scint_endcap then
    (ecal_pairs : ℚ) * (pb_cm + sc_cm + pbwo4_cm) + sc_cm
  else
    (ecal_pairs : ℚ) * (pb_cm + sc_cm + pbwo4_cm)

/-- The full layer stack built by design variant C before the optional shim is
considered. -/
def tripleBuiltLayers (ecal_pairs : ℤ) (pb_cm sc_cm pbwo4_cm : ℚ)
    (add_scint_endcap : Bool) (ecal_pb ecal_scint ecal_pbwo4 : String)
    (trans_pairs : ℤ) (fe_trans sc_trans : ℚ)
    (mid_pairs : ℤ) (fe_mid sc_mid : ℚ)
    (back_pairs : ℤ) (fe_back sc_back : ℚ)
    (hcal_absorber hcal_active : String) (sensitive_active_only : Bool) :
    List Layer :=
  tripleEcalLayers ecal_pairs pb_cm sc_cm pbwo4_cm add_scint_endcap
    ecal_pb ecal_scint ecal_pbwo4
  ++ sectionLayers trans_pairs fe_trans hcal_absorber sc_trans hcal_active
       sensitive_active_only
  ++ sectionLayers mid_pairs fe_mid hcal_absorber sc_mid hcal_active
       sensitive_active_only
  ++ sectionLayers back_pairs fe_back hcal_absorber sc_back hcal_active
       sensitive_active_only

/-- The `total_len` value design variant C has accumulated just before the
shim decision (the "built stack length"). -/
def tripleBuiltLen (ecal_pairs : ℤ) (pb_cm sc_cm pbwo4_cm : ℚ)
    (add_scint_endcap : Bool)
    (trans_pairs : ℤ) (fe_trans sc_trans : ℚ)
    (mid_pairs : ℤ) (fe_mid sc_mid : ℚ)
    (back_pairs : ℤ) (fe_back sc_back : ℚ) : ℚ :=
  tripleEcalLen ecal_pairs pb_cm sc_cm pbwo4_cm add_scint_endcap
  + (trans_pairs : ℚ) * (fe_trans + sc_trans)
  + (mid_pairs : ℚ) * (fe_mid + sc_mid)
  + (back_pairs : ℚ) * (fe_back + sc_back)

/-- Design variant C, `build_triple_ecal_then_fe_scint_hcal_2m_v4_2`
(cost_tracker=None instance): triplet ECAL with optional scint end-cap, three
HCAL sections, and the exact-length shim: if
`leftover = target_total_len_cm - total_len > 1e-6`, one extra passive
absorber layer of thickness `leftover` is appended and `total_len` is bumped
by the same amount. -/
def build_triple_ecal_then_fe_scint_hcal_2m_v4_2
    (ecal_pairs : ℤ) (pb_cm sc_cm pbwo4_cm : ℚ)
    (add_scint_endcap : Bool) (ecal_pb ecal_scint ecal_pbwo4 : String)
    (trans_pairs : ℤ) (fe_trans sc_trans : ℚ)
    (mid_pairs : ℤ) (fe_mid sc_mid : ℚ)
    (back_pairs : ℤ) (fe_back sc_back : ℚ)
    (hcal_absorber hcal_active : String) (sensitive_active_only : Bool)
    (target_total_len_cm : ℚ) :
    GeometryDescriptor × List (String × SpecVal) :=
  let total_len : ℚ := tripleBuiltLen ecal_pairs pb_cm sc_cm pbwo4_cm
    add_scint_endcap trans_pairs fe_trans sc_trans mid_pairs fe_mid sc_mid
    back_pairs fe_back sc_back
  let leftover : ℚ := target_total_len_cm - total_len
  let shimLayers : List Layer :=
    if leftover > 1/1000000 then [⟨leftover, hcal_absorber, false⟩] else []
  let total_len2 : ℚ :=
    if leftover > 1/1000000 then total_len + leftover else total_len
  ⟨⟨1, tripleBuiltLayers ecal_pairs pb_cm sc_cm pbwo4_cm add_scint_endcap
      ecal_pb ecal_scint ecal_pbwo4 trans_pairs fe_trans sc_trans
      mid_pairs fe_mid sc_mid back_pairs fe_back sc_back
      hcal_absorber hcal_active sensitive_active_only ++ shimLayers⟩,
   [ ("ecal_pairs", SpecVal.num (ecal_pairs : ℚ)),
     ("pb_cm", SpecVal.num pb_cm), ("sc_cm", SpecVal.num sc_cm),
     ("pbwo4_cm", SpecVal.num pbwo4_cm),
     ("scint_endcap", SpecVal.flag add_scint_endcap),
     ("ecal_len_cm", SpecVal.num (tripleEcalLen ecal_pairs pb_cm sc_cm
       pbwo4_cm add_scint_endcap)),
     ("trans_pairs", SpecVal.num (trans_pairs : ℚ)),
     ("fe_trans", SpecVal.num fe_trans), ("sc_trans", SpecVal.num sc_trans),
     ("mid_pairs", SpecVal.num (mid_pairs : ℚ)),
     ("fe_mid", SpecVal.num fe_mid), ("sc_mid", SpecVal.num sc_mid),
     ("back_pairs", SpecVal.num (back_pairs : ℚ)),
     ("fe_back", SpecVal.num fe_back), ("sc_back", SpecVal.num sc_back),
     ("total_len_cm", SpecVal.num total_len2),
     ("ecal_slice_cm", SpecVal.num sc_cm) ]⟩

/-- The operation alphabet of the ledger accumulation API (the calls the
ledger invariant quantifies over). -/
inductive LedgerOp where
  | addOp (material : String) (thickness_cm : ℚ) (count : ℤ)
  | addPairOp (layers : String × ℚ × String × ℚ) (count : ℤ)
  | addPeriodOp (spec : List (String × ℚ)) (count : ℤ)

/-- Dispatch one ledger operation. -/
def applyOp (cat : Catalog) (ct : CostTracker) :
    LedgerOp → Except (String × CostTracker) CostTracker
  | .addOp m t n => CostTracker.add cat ct m t n
  | .addPairOp ls n => CostTracker.add_pair cat ct ls n
  | .addPeriodOp spec n => CostTracker.add_period cat ct spec n

/-- The tracker state an operation leaves behind: the new state on success,
the state at the moment of the raise on a KeyError. -/
def outState : Except (String × CostTracker) CostTracker → CostTracker
  | .ok ct => ct
  | .error e => e.2

/-- Run a sequence of ledger operations; a raised KeyError aborts the
remaining calls, leaving the state the raise produced. -/
def runOps (cat : Catalog) (ct : CostTracker) : List LedgerOp → CostTracker
  | [] => ct
  | op :: rest =>
    match applyOp cat ct op with
    | .ok ct2 => runOps cat ct2 rest
    | .error e => e.2

/-- The ledger bookkeeping invariant: each grand total equals the sum of the
corresponding per-material accumulator. -/
def LedgerInv (ct : CostTracker) : Prop :=
  sumVals ct.by_material_cm = ct.total_length_cm
  ∧ sumVals ct.by_material_chf = ct.total_cost_chf
  ∧ sumVals ct.by_material_X0 = ct.total_X0
  ∧ sumVals ct.by_material_lambdaI = ct.total_lambdaI

/-- The state an `add_pair`-style double accumulation leaves behind: first
material then second material, both with effective thickness multiplier `c`,
on a tracker of area `a`. -/
def addPairState (ct : CostTracker) (m1 : String) (t1 : ℚ) (r1 : ℚ)
    (p1 : MatProps) (m2 : String) (t2 : ℚ) (r2 : ℚ) (p2 : MatProps)
    (a c : ℚ) : CostTracker :=
  applyAdd (applyAdd ct m1 (t1 * c) (t1 * c * a * r1) (t1 * c / p1.X0_cm)
    (t1 * c / p1.lambdaI_cm)) m2 (t2 * c) (t2 * c * a * r2)
    (t2 * c / p2.X0_cm) (t2 * c / p2.lambdaI_cm)

theorem sumVals_bump (d : List (String × ℚ)) (m : String) (v : ℚ) :
    sumVals (bump d m v) = sumVals d + v := by
  induction d with
  | nil => simp [bump, sumVals]
  | cons kv rest ih =>
    obtain ⟨k, x⟩ := kv
    by_cases h : k = m
    · simp [bump, h, sumVals]
      ring
    · simp only [bump, h, if_false, sumVals, List.map_cons, List.sum_cons] at ih ⊢
      rw [ih]
      ring

theorem bump_bump_same (d : List (String × ℚ)) (m : String) (a b : ℚ) :
    bump (bump d m a) m b = bump d m (a + b) := by
  induction d with
  | nil => simp [bump, add_assoc]
  | cons kv rest ih =>
    obtain ⟨k, x⟩ := kv
    by_cases h : k = m
    · simp [bump, h, add_assoc]
    · simp [bump, h, ih]

theorem mem_keys_bump_self (d : List (String × ℚ)) (m : String) (v : ℚ) :
    m ∈ (bump d m v).map Prod.fst := by
  induction d with
  | nil => simp [bump]
  | cons kv rest ih =>
    obtain ⟨k, x⟩ := kv
    by_cases h : k = m
    · simp [bump, h]
    · simp only [bump, h, if_false, List.map_cons, List.mem_cons]
      exact Or.inr ih

theorem bump_bump_comm (d : List (String × ℚ)) (m1 m2 : String) (a b : ℚ)
    (hne : m1 ≠ m2) (hm : m1 ∈ d.map Prod.fst) :
    bump (bump d m1 a) m2 b = bump (bump d m2 b) m1 a := by
  induction d with
  | nil => simp at hm
  | cons kv rest ih =>
    obtain ⟨k, x⟩ := kv
    by_cases h1 : k = m1
    · have h2 : ¬ k = m2 := by simp [h1, hne]
      simp [bump, h1, h2, hne]
    · by_cases h2 : k = m2
      · simp [bump, h1, h2, hne, Ne.symm hne]
      · have hm' : m1 ∈ rest.map Prod.fst := by
          simp only [List.map_cons, List.mem_cons] at hm
          rcases hm with hk | hrest
          · exact absurd hk.symm h1
          · exact hrest
        simp [bump, h1, h2, ih hm']

theorem getD0_bump_self_fresh (d : List (String × ℚ)) (m : String) (v : ℚ)
    (h : m ∉ d.map Prod.fst) : getD0 (bump d m v) m = v := by
  induction d with
  | nil => simp [bump, getD0]
  | cons kv rest ih =>
    obtain ⟨k, x⟩ := kv
    simp only [List.map_cons, List.mem_cons] at h
    push_neg at h
    have hk : ¬ k = m := fun hkm => h.1 hkm.symm
    simp [bump, getD0, hk, ih h.2]

theorem applyAdd_area (ct : CostTracker) (m : String) (a b c e : ℚ) :
    (applyAdd ct m a b c e).area_m2 = ct.area_m2 := rfl

theorem applyAdd_applyAdd_same (ct : CostTracker) (m : String)
    (a b c e a2 b2 c2 e2 : ℚ) :
    applyAdd (applyAdd ct m a b c e) m a2 b2 c2 e2
      = applyAdd ct m (a + a2) (b + b2) (c + c2) (e + e2) := by
  simp [applyAdd, CostTracker.mk.injEq, bump_bump_same, add_assoc]

theorem applyAdd_comm (ct : CostTracker) (m1 m2 : String)
    (a b c e a2 b2 c2 e2 : ℚ) (hne : m1 ≠ m2)
    (h1 : m1 ∈ ct.by_material_cm.map Prod.fst)
    (h2 : m1 ∈ ct.by_material_chf.map Prod.fst)
    (h3 : m1 ∈ ct.by_material_X0.map Prod.fst)
    (h4 : m1 ∈ ct.by_material_lambdaI.map Prod.fst) :
    applyAdd (applyAdd ct m1 a b c e) m2 a2 b2 c2 e2
      = applyAdd (applyAdd ct m2 a2 b2 c2 e2) m1 a b c e := by
  simp only [applyAdd, CostTracker.mk.injEq]
  exact ⟨trivial, bump_bump_comm _ _ _ _ _ hne h1, bump_bump_comm _ _ _ _ _ hne h2,
    bump_bump_comm _ _ _ _ _ hne h3, bump_bump_comm _ _ _ _ _ hne h4,
    by ring, by ring, by ring, by ring⟩

theorem add_ok (cat : Catalog) (ct : CostTracker) (m : String) (t : ℚ) (n : ℤ)
    (r : ℚ) (p : MatProps) (h1 : cat.price m = some r)
    (h2 : cat.props m = some p) :
    CostTracker.add cat ct m t n = .ok (applyAdd ct m (t * (n : ℚ))
      (t * (n : ℚ) * ct.area_m2 * r) (t * (n : ℚ) / p.X0_cm)
      (t * (n : ℚ) / p.lambdaI_cm)) := by
  simp [CostTracker.add, h1, h2]

theorem LedgerInv_init (a : ℚ) : LedgerInv (CostTracker.init a) := by
  refine ⟨rfl, rfl, rfl, rfl⟩

theorem LedgerInv_applyAdd (ct : CostTracker) (m : String) (a b c e : ℚ)
    (h : LedgerInv ct) : LedgerInv (applyAdd ct m a b c e) := by
  obtain ⟨i1, i2, i3, i4⟩ := h
  exact ⟨by simp [applyAdd, sumVals_bump, i1],
    by simp [applyAdd, sumVals_bump, i2],
    by simp [applyAdd, sumVals_bump, i3],
    by simp [applyAdd, sumVals_bump, i4]⟩

theorem LedgerInv_outState_add (cat : Catalog) (ct : CostTracker) (m : String)
    (t : ℚ) (n : ℤ) (h : LedgerInv ct) :
    LedgerInv (outState (CostTracker.add cat ct m t n)) := by
  unfold CostTracker.add
  cases hp : cat.price m with
  | none => simpa [outState] using h
  | some r =>
    cases hpr : cat.props m with
    | none => simpa [outState] using h
    | some p => simpa [outState] using LedgerInv_applyAdd ct m _ _ _ _ h

theorem LedgerInv_outState_add_pair (cat : Catalog) (ct : CostTracker)
    (ls : String × ℚ × String × ℚ) (n : ℤ) (h : LedgerInv ct) :
    LedgerInv (outState (CostTracker.add_pair cat ct ls n)) := by
  unfold CostTracker.add_pair
  cases h1 : CostTracker.add cat ct ls.1 ls.2.1 n with
  | error e =>
    have := LedgerInv_outState_add cat ct ls.1 ls.2.1 n h
    rw [h1] at this
    simpa [outState] using this
  | ok ct1 =>
    have hct1 : LedgerInv ct1 := by
      have := LedgerInv_outState_add cat ct ls.1 ls.2.1 n h
      rw [h1] at this
      simpa [outState] using this
    exact LedgerInv_outState_add cat ct1 ls.2.2.1 ls.2.2.2 n hct1

theorem LedgerInv_outState_addSpecPass (cat : Catalog)
    (spec : List (String × ℚ)) :
    ∀ ct : CostTracker, LedgerInv ct →
      LedgerInv (outState (addSpecPass cat ct spec)) := by
  induction spec with
  | nil => intro ct h; simpa [addSpecPass, outState] using h
  | cons mt rest ih =>
    intro ct h
    obtain ⟨m, t⟩ := mt
    simp only [addSpecPass]
    cases h1 : CostTracker.add cat ct m t 1 with
    | error e =>
      have := LedgerInv_outState_add cat ct m t 1 h
      rw [h1] at this
      simpa [outState] using this
    | ok ct1 =>
      have hct1 : LedgerInv ct1 := by
        have := LedgerInv_outState_add cat ct m t 1 h
        rw [h1] at this
        simpa [outState] using this
      exact ih ct1 hct1

theorem LedgerInv_outState_addPeriodAux (cat : Catalog)
    (spec : List (String × ℚ)) :
    ∀ (k : ℕ) (ct : CostTracker), LedgerInv ct →
      LedgerInv (outState (addPeriodAux cat spec k ct)) := by
  intro k
  induction k with
  | zero => intro ct h; simpa [addPeriodAux, outState] using h
  | succ k ih =>
    intro ct h
    simp only [addPeriodAux]
    cases h1 : addSpecPass cat ct spec with
    | error e =>
      have := LedgerInv_outState_addSpecPass cat spec ct h
      rw [h1] at this
      simpa [outState] using this
    | ok ct1 =>
      have hct1 : LedgerInv ct1 := by
        have := LedgerInv_outState_addSpecPass cat spec ct h
        rw [h1] at this
        simpa [outState] using this
      exact ih ct1 hct1

theorem LedgerInv_outState_applyOp (cat : Catalog) (ct : CostTracker)
    (op : LedgerOp) (h : LedgerInv ct) :
    LedgerInv (outState (applyOp cat ct op)) := by
  cases op with
  | addOp m t n => exact LedgerInv_outState_add cat ct m t n h
  | addPairOp ls n => exact LedgerInv_outState_add_pair cat ct ls n h
  | addPeriodOp spec n =>
    exact LedgerInv_outState_addPeriodAux cat spec n.toNat ct h

theorem LedgerInv_runOps (cat : Catalog) (ops : List LedgerOp) :
    ∀ ct : CostTracker, LedgerInv ct → LedgerInv (runOps cat ct ops) := by
  induction ops with
  | nil => intro ct h; simpa [runOps] using h
  | cons op rest ih =>
    intro ct h
    simp only [runOps]
    cases h1 : applyOp cat ct op with
    | error e =>
      have := LedgerInv_outState_applyOp cat ct op h
      rw [h1] at this
      simpa [outState] using this
    | ok ct1 =>
      have hct1 : LedgerInv ct1 := by
        have := LedgerInv_outState_applyOp cat ct op h
        rw [h1] at this
        simpa [outState] using this
      exact ih ct1 hct1

theorem applyAdd_same4 (ct : CostTracker) (m : String)
    (a1 b1 c1 e1 a2 b2 c2 e2 a3 b3 c3 e3 a4 b4 c4 e4 : ℚ) :
    applyAdd (applyAdd (applyAdd (applyAdd ct m a1 b1 c1 e1) m a2 b2 c2 e2)
        m a3 b3 c3 e3) m a4 b4 c4 e4
      = applyAdd ct m (a1 + a2 + a3 + a4) (b1 + b2 + b3 + b4)
          (c1 + c2 + c3 + c4) (e1 + e2 + e3 + e4) := by
  rw [applyAdd_applyAdd_same, applyAdd_applyAdd_same, applyAdd_applyAdd_same]
  congr 1 <;> ring

theorem applyAdd_swap_merge (ct : CostTracker) (m1 m2 : String)
    (a1 b1 c1 e1 a2 b2 c2 e2 a3 b3 c3 e3 a4 b4 c4 e4 : ℚ) (hne : m1 ≠ m2) :
    applyAdd (applyAdd (applyAdd (applyAdd ct m1 a1 b1 c1 e1) m2 a2 b2 c2 e2)
        m1 a3 b3 c3 e3) m2 a4 b4 c4 e4
      = applyAdd (applyAdd ct m1 (a1 + a3) (b1 + b3) (c1 + c3) (e1 + e3))
          m2 (a2 + a4) (b2 + b4) (c2 + c4) (e2 + e4) := by
  rw [← applyAdd_comm (applyAdd ct m1 a1 b1 c1 e1) m1 m2 a3 b3 c3 e3
    a2 b2 c2 e2 hne (mem_keys_bump_self _ _ _) (mem_keys_bump_self _ _ _)
    (mem_keys_bump_self _ _ _) (mem_keys_bump_self _ _ _),
    applyAdd_applyAdd_same, applyAdd_applyAdd_same]

theorem addPairState_area (ct : CostTracker) (m1 : String) (t1 r1 : ℚ)
    (p1 : MatProps) (m2 : String) (t2 r2 : ℚ) (p2 : MatProps) (a c : ℚ) :
    (addPairState ct m1 t1 r1 p1 m2 t2 r2 p2 a c).area_m2 = ct.area_m2 := rfl

theorem addPairState_combine (ct : CostTracker) (m1 : String) (t1 r1 : ℚ)
    (p1 : MatProps) (m2 : String) (t2 r2 : ℚ) (p2 : MatProps) (a c d : ℚ)
    (hcoh : m1 = m2 → r1 = r2 ∧ p1 = p2) :
    addPairState (addPairState ct m1 t1 r1 p1 m2 t2 r2 p2 a c)
        m1 t1 r1 p1 m2 t2 r2 p2 a d
      = addPairState ct m1 t1 r1 p1 m2 t2 r2 p2 a (c + d) := by
  by_cases hm : m1 = m2
  · obtain ⟨hr, hp⟩ := hcoh hm
    subst hm
    subst hr
    subst hp
    unfold addPairState
    rw [applyAdd_same4, applyAdd_applyAdd_same]
    congr 1 <;> ring
  · unfold addPairState
    rw [applyAdd_swap_merge _ _ _ _ _ _ _ _ _ _ _ _ _ _ _ _ _ _ _ hm]
    congr 1 <;> ring_nf

theorem add_pair_ok (cat : Catalog) (ct : CostTracker) (m1 : String) (t1 : ℚ)
    (m2 : String) (t2 : ℚ) (n : ℤ) (r1 : ℚ) (p1 : MatProps) (r2 : ℚ)
    (p2 : MatProps) (h1 : cat.price m1 = some r1) (h2 : cat.props m1 = some p1)
    (h3 : cat.price m2 = some r2) (h4 : cat.props m2 = some p2) :
    CostTracker.add_pair cat ct (m1, t1, m2, t2) n
      = .ok (addPairState ct m1 t1 r1 p1 m2 t2 r2 p2 ct.area_m2 (n : ℚ)) := by
  have e1 := add_ok cat ct m1 t1 n r1 p1 h1 h2
  have e2 := add_ok cat (applyAdd ct m1 (t1 * (n : ℚ))
    (t1 * (n : ℚ) * ct.area_m2 * r1) (t1 * (n : ℚ) / p1.X0_cm)
    (t1 * (n : ℚ) / p1.lambdaI_cm)) m2 t2 n r2 p2 h3 h4
  simp only [CostTracker.add_pair, e1, e2, applyAdd_area]
  rfl

theorem addSpecPass_pair_ok (cat : Catalog) (m1 m2 : String) (t1 t2 : ℚ)
    (r1 r2 : ℚ) (p1 p2 : MatProps) (a : ℚ)
    (h1 : cat.price m1 = some r1) (h2 : cat.props m1 = some p1)
    (h3 : cat.price m2 = some r2) (h4 : cat.props m2 = some p2)
    (ct : CostTracker) (ha : ct.area_m2 = a) :
    addSpecPass cat ct [(m1, t1), (m2, t2)]
      = .ok (addPairState ct m1 t1 r1 p1 m2 t2 r2 p2 a 1) := by
  have e1 := add_ok cat ct m1 t1 1 r1 p1 h1 h2
  have e2 := add_ok cat (applyAdd ct m1 (t1 * ((1 : ℤ) : ℚ))
    (t1 * ((1 : ℤ) : ℚ) * ct.area_m2 * r1) (t1 * ((1 : ℤ) : ℚ) / p1.X0_cm)
    (t1 * ((1 : ℤ) : ℚ) / p1.lambdaI_cm)) m2 t2 1 r2 p2 h3 h4
  simp only [addSpecPass, e1, e2, applyAdd_area]
  subst ha
  norm_num [addPairState]

theorem addPeriodAux_succ (cat : Catalog) (spec : List (String × ℚ)) (k : ℕ)
    (ct : CostTracker) :
    addPeriodAux cat spec (k + 1) ct
      = match addSpecPass cat ct spec with
        | .error e => .error e
        | .ok ct1 => addPeriodAux cat spec k ct1 := rfl

theorem addPeriodAux_pair_ok (cat : Catalog) (m1 m2 : String) (t1 t2 : ℚ)
    (r1 r2 : ℚ) (p1 p2 : MatProps) (a : ℚ)
    (h1 : cat.price m1 = some r1) (h2 : cat.props m1 = some p1)
    (h3 : cat.price m2 = some r2) (h4 : cat.props m2 = some p2)
    (hcoh : m1 = m2 → r1 = r2 ∧ p1 = p2) :
    ∀ (k : ℕ) (ct : CostTracker), ct.area_m2 = a →
      addPeriodAux cat [(m1, t1), (m2, t2)] (k + 1) ct
        = .ok (addPairState ct m1 t1 r1 p1 m2 t2 r2 p2 a ((k : ℚ) + 1)) := by
  intro k
  induction k with
  | zero =>
    intro ct ha
    simp only [addPeriodAux,
      addSpecPass_pair_ok cat m1 m2 t1 t2 r1 r2 p1 p2 a h1 h2 h3 h4 ct ha]
    norm_num
  | succ k ih =>
    intro ct ha
    have harea : (addPairState ct m1 t1 r1 p1 m2 t2 r2 p2 a 1).area_m2 = a := by
      rw [addPairState_area, ha]
    have hstep : addPeriodAux cat [(m1, t1), (m2, t2)] (k + 1 + 1) ct
        = addPeriodAux cat [(m1, t1), (m2, t2)] (k + 1)
            (addPairState ct m1 t1 r1 p1 m2 t2 r2 p2 a 1) := by
      rw [addPeriodAux_succ cat [(m1, t1), (m2, t2)] (k + 1) ct,
        addSpecPass_pair_ok cat m1 m2 t1 t2 r1 r2 p1 p2 a h1 h2 h3 h4 ct ha]
    rw [hstep, ih (addPairState ct m1 t1 r1 p1 m2 t2 r2 p2 a 1) harea,
      addPairState_combine ct m1 t1 r1 p1 m2 t2 r2 p2 a 1 ((k : ℚ) + 1) hcoh]
    have harg : (1 : ℚ) + ((k : ℚ) + 1) = ((k + 1 : ℕ) : ℚ) + 1 := by
      push_cast
      ring
    rw [harg]

theorem int_toNat_cast_q (n : ℤ) (hn : 0 ≤ n) : ((n.toNat : ℕ) : ℚ) = (n : ℚ) := by
  have h := Int.toNat_of_nonneg hn
  exact_mod_cast congrArg (fun z : ℤ => (z : ℚ)) h

theorem sumThick_append (L1 L2 : List Layer) :
    sumThick (L1 ++ L2) = sumThick L1 + sumThick L2 := by
  simp [sumThick]

theorem sumThick_flatten_replicate (k : ℕ) (L : List Layer) :
    sumThick (List.flatten (List.replicate k L)) = (k : ℚ) * sumThick L := by
  induction k with
  | zero => simp [sumThick]
  | succ k ih =>
    rw [List.replicate_succ, List.flatten_cons, sumThick_append, ih]
    push_cast
    ring

theorem sumThick_section (n : ℤ) (ta : ℚ) (ma : String) (tb : ℚ) (mb : String)
    (s : Bool) :
    sumThick (sectionLayers n ta ma tb mb s) = (n.toNat : ℚ) * (ta + tb) := by
  rw [sectionLayers, sumThick_flatten_replicate]
  simp [sumThick]

theorem sumThick_cons (l : Layer) (L : List Layer) :
    sumThick (l :: L) = l.thickness_cm + sumThick L := by
  simp [sumThick]

theorem sumThick_nil : sumThick [] = 0 := rfl

theorem sumThick_tripleEcalLayers (ecal_pairs : ℤ) (pb sc pw : ℚ) (cap : Bool)
    (mp ms mw : String) (h : 0 ≤ ecal_pairs) :
    sumThick (tripleEcalLayers ecal_pairs pb sc pw cap mp ms mw)
      = tripleEcalLen ecal_pairs pb sc pw cap := by
  rw [tripleEcalLayers, sumThick_append, sumThick_flatten_replicate,
    int_toNat_cast_q _ h, tripleEcalLen, sumThick_cons, sumThick_cons,
    sumThick_cons, sumThick_nil]
  split_ifs
  · rw [sumThick_cons, sumThick_nil]
    ring
  · rw [sumThick_nil]
    ring

theorem sumThick_tripleBuiltLayers (ecal_pairs : ℤ) (pb sc pw : ℚ) (cap : Bool)
    (mp ms mw : String) (trans_pairs : ℤ) (fe_t sc_t : ℚ) (mid_pairs : ℤ)
    (fe_m sc_m : ℚ) (back_pairs : ℤ) (fe_b sc_b : ℚ) (ha hc : String)
    (sens : Bool) (h0 : 0 ≤ ecal_pairs) (h1 : 0 ≤ trans_pairs)
    (h2 : 0 ≤ mid_pairs) (h3 : 0 ≤ back_pairs) :
    sumThick (tripleBuiltLayers ecal_pairs pb sc pw cap mp ms mw trans_pairs
        fe_t sc_t mid_pairs fe_m sc_m back_pairs fe_b sc_b ha hc sens)
      = tripleBuiltLen ecal_pairs pb sc pw cap trans_pairs fe_t sc_t mid_pairs
          fe_m sc_m back_pairs fe_b sc_b := by
  rw [tripleBuiltLayers, sumThick_append, sumThick_append, sumThick_append,
    sumThick_tripleEcalLayers _ _ _ _ _ _ _ _ h0, sumThick_section,
    sumThick_section, sumThick_section, int_toNat_cast_q _ h1,
    int_toNat_cast_q _ h2, int_toNat_cast_q _ h3, tripleBuiltLen]

theorem mem_insertSorted (s t : String) (l : List String) :
    t ∈ insertSorted s l ↔ t = s ∨ t ∈ l := by
  induction l with
  | nil => simp [insertSorted]
  | cons x rest ih =>
    by_cases h : s ≤ x
    · simp [insertSorted, h]
    · simp [insertSorted, h, ih]
      tauto

theorem mem_sortStrings (t : String) (l : List String) :
    t ∈ sortStrings l ↔ t ∈ l := by
  induction l with
  | nil => simp [sortStrings]
  | cons x rest ih => simp [sortStrings, mem_insertSorted, ih]

theorem triple_build_layers_eq (ep : ℤ) (pb sc pw : ℚ) (cap : Bool)
    (mp ms mw : String) (tp : ℤ) (ft st : ℚ) (mq : ℤ) (fm sm : ℚ)
    (bq : ℤ) (fb sb : ℚ) (habs hact : String) (sens : Bool) (tgt : ℚ) :
    (build_triple_ecal_then_fe_scint_hcal_2m_v4_2 ep pb sc pw cap mp ms mw tp
        ft st mq fm sm bq fb sb habs hact sens tgt).1.layers
      = tripleBuiltLayers ep pb sc pw cap mp ms mw tp ft st mq fm sm bq fb sb
          habs hact sens
        ++ (if tgt - tripleBuiltLen ep pb sc pw cap tp ft st mq fm sm bq fb sb
              > 1/1000000 then
            [⟨tgt - tripleBuiltLen ep pb sc pw cap tp ft st mq fm sm bq fb sb,
              habs, false⟩]
          else []) := rfl

theorem triple_build_total_eq (ep : ℤ) (pb sc pw : ℚ) (cap : Bool)
    (mp ms mw : String) (tp : ℤ) (ft st : ℚ) (mq : ℤ) (fm sm : ℚ)
    (bq : ℤ) (fb sb : ℚ) (habs hact : String) (sens : Bool) (tgt : ℚ) :
    specGet (build_triple_ecal_then_fe_scint_hcal_2m_v4_2 ep pb sc pw cap mp
        ms mw tp ft st mq fm sm bq fb sb habs hact sens tgt).2 "total_len_cm"
      = some (SpecVal.num
          (if tgt - tripleBuiltLen ep pb sc pw cap tp ft st mq fm sm bq fb sb
              > 1/1000000 then tgt
           else tripleBuiltLen ep pb sc pw cap tp ft st mq fm sm bq fb sb)) := by
  have h0 : specGet (build_triple_ecal_then_fe_scint_hcal_2m_v4_2 ep pb sc pw
      cap mp ms mw tp ft st mq fm sm bq fb sb habs hact sens tgt).2
      "total_len_cm"
      = some (SpecVal.num
          (if tgt - tripleBuiltLen ep pb sc pw cap tp ft st mq fm sm bq fb sb
              > 1/1000000 then
            tripleBuiltLen ep pb sc pw cap tp ft st mq fm sm bq fb sb
              + (tgt - tripleBuiltLen ep pb sc pw cap tp ft st mq fm sm bq fb
                  sb)
           else tripleBuiltLen ep pb sc pw cap tp ft st mq fm sm bq fb sb)) :=
    rfl
  rw [h0]
  split_ifs
  · congr 2
    ring
  · rfl

theorem v1_total_eq_sum (tX x0 : ℚ) (es : ℤ) (mat : String) (fp : ℤ)
    (ff sf : ℚ) (mq : ℤ) (fm sm : ℚ) (bq : ℤ) (fb sb : ℚ) (ab ac : String)
    (sens : Bool) (hs : 0 < es) (h1 : 0 ≤ fp) (h2 : 0 ≤ mq) (h3 : 0 ≤ bq) :
    specGet (build_ecal_pbwo4_26X0_then_graded_fe_scint_hcal_200cm_v1 tX x0 es
        mat fp ff sf mq fm sm bq fb sb ab ac sens).2 "total_len_cm"
      = some (SpecVal.num (sumThick
          (build_ecal_pbwo4_26X0_then_graded_fe_scint_hcal_200cm_v1 tX x0 es
            mat fp ff sf mq fm sm bq fb sb ab ac sens).1.layers)) := by
  have he : ((es : ℤ) : ℚ) ≠ 0 := by
    have hne : es ≠ 0 := by omega
    exact_mod_cast hne
  have ha : specGet (build_ecal_pbwo4_26X0_then_graded_fe_scint_hcal_200cm_v1
      tX x0 es mat fp ff sf mq fm sm bq fb sb ab ac sens).2 "total_len_cm"
      = some (SpecVal.num (tX * x0 + ((fp : ℚ) * (ff + sf)
          + (mq : ℚ) * (fm + sm) + (bq : ℚ) * (fb + sb)))) := rfl
  have hL : (build_ecal_pbwo4_26X0_then_graded_fe_scint_hcal_200cm_v1 tX x0 es
      mat fp ff sf mq fm sm bq fb sb ab ac sens).1.layers
      = List.flatten (List.replicate es.toNat
          [⟨tX * x0 / (es : ℚ), mat, true⟩])
        ++ (sectionLayers fp ff ab sf ac sens ++ sectionLayers mq fm ab sm ac
            sens ++ sectionLayers bq fb ab sb ac sens) := rfl
  rw [ha, hL, sumThick_append, sumThick_append, sumThick_append,
    sumThick_flatten_replicate, sumThick_section, sumThick_section,
    sumThick_section, int_toNat_cast_q es hs.le, int_toNat_cast_q fp h1,
    int_toNat_cast_q mq h2, int_toNat_cast_q bq h3, sumThick_cons,
    sumThick_nil]
  congr 2
  field_simp

theorem v2_total_eq_sum (ep : ℤ) (ppb psc : ℚ) (eab eac : String) (fp : ℤ)
    (ff sf : ℚ) (mq : ℤ) (fm sm : ℚ) (bq : ℤ) (fb sb : ℚ) (ab ac : String)
    (sens : Bool) (h0 : 0 ≤ ep) (h1 : 0 ≤ fp) (h2 : 0 ≤ mq) (h3 : 0 ≤ bq) :
    specGet (build_pb_scint_ecal_then_graded_fe_scint_hcal_200cm_v2 ep ppb psc
        eab eac fp ff sf mq fm sm bq fb sb ab ac sens).2 "total_len_cm"
      = some (SpecVal.num (sumThick
          (build_pb_scint_ecal_then_graded_fe_scint_hcal_200cm_v2 ep ppb psc
            eab eac fp ff sf mq fm sm bq fb sb ab ac sens).1.layers)) := by
  have ha : specGet (build_pb_scint_ecal_then_graded_fe_scint_hcal_200cm_v2 ep
      ppb psc eab eac fp ff sf mq fm sm bq fb sb ab ac sens).2 "total_len_cm"
      = some (SpecVal.num ((ep : ℚ) * (ppb + psc) + ((fp : ℚ) * (ff + sf)
          + (mq : ℚ) * (fm + sm) + (bq : ℚ) * (fb + sb)))) := rfl
  have hL : (build_pb_scint_ecal_then_graded_fe_scint_hcal_200cm_v2 ep ppb psc
      eab eac fp ff sf mq fm sm bq fb sb ab ac sens).1.layers
      = sectionLayers ep ppb eab psc eac true
        ++ (sectionLayers fp ff ab sf ac sens ++ sectionLayers mq fm ab sm ac
            sens ++ sectionLayers bq fb ab sb ac sens) := rfl
  rw [ha, hL, sumThick_append, sumThick_append, sumThick_append,
    sumThick_section, sumThick_section, sumThick_section, sumThick_section,
    int_toNat_cast_q ep h0, int_toNat_cast_q fp h1, int_toNat_cast_q mq h2,
    int_toNat_cast_q bq h3]

theorem v3_total_eq_sum (ep : ℤ) (pb sc pw : ℚ) (cap : Bool)
    (mp ms mw : String) (tp : ℤ) (ft st : ℚ) (mq : ℤ) (fm sm : ℚ)
    (bq : ℤ) (fb sb : ℚ) (habs hact : String) (sens : Bool) (tgt : ℚ)
    (h0 : 0 ≤ ep) (h1 : 0 ≤ tp) (h2 : 0 ≤ mq) (h3 : 0 ≤ bq) :
    specGet (build_triple_ecal_then_fe_scint_hcal_2m_v4_2 ep pb sc pw cap mp
        ms mw tp ft st mq fm sm bq fb sb habs hact sens tgt).2 "total_len_cm"
      = some (SpecVal.num (sumThick
          (build_triple_ecal_then_fe_scint_hcal_2m_v4_2 ep pb sc pw cap mp ms
            mw tp ft st mq fm sm bq fb sb habs hact sens tgt).1.layers)) := by
  rw [triple_build_total_eq, triple_build_layers_eq, sumThick_append,
    sumThick_tripleBuiltLayers ep pb sc pw cap mp ms mw tp ft st mq fm sm bq
      fb sb habs hact sens h0 h1 h2 h3]
  split_ifs
  · rw [sumThick_cons, sumThick_nil]
    congr 2
    ring
  · rw [sumThick_nil]
    congr 2
    ring

/-- C1: for every sequence of `add` / `add_pair` / `add_period` calls on a
fresh ledger, the totals `total_length_cm`, `total_cost_chf`, `total_X0` and
`total_lambdaI` equal the sums of the per-material accumulators
`by_material_cm`, `by_material_chf`, `by_material_X0` and
`by_material_lambdaI` respectively; since the operation list is arbitrary,
this holds at every point in time (after every prefix, and also in the state
a mid-sequence KeyError leaves behind). -/
theorem ledger_totals_eq_sum_by_material (cat : Catalog) (area : ℚ)
    (ops : List LedgerOp) :
    LedgerInv (runOps cat (CostTracker.init area) ops) :=
  LedgerInv_runOps cat ops (CostTracker.init area) (LedgerInv_init area)

/-- C2: in the exact-length variant, if the shortfall
`target_total_len_cm - built` is at most 1e-6 no shim layer is appended and
the reported `total_len_cm` is the built length; otherwise exactly one extra
non-sensitive absorber layer of thickness equal to the shortfall is appended
and the reported `total_len_cm` equals the target exactly. -/
theorem exact_length_variant_shim_spec (ecal_pairs : ℤ)
    (pb_cm sc_cm pbwo4_cm : ℚ) (add_scint_endcap : Bool)
    (ecal_pb ecal_scint ecal_pbwo4 : String) (trans_pairs : ℤ)
    (fe_trans sc_trans : ℚ) (mid_pairs : ℤ) (fe_mid sc_mid : ℚ)
    (back_pairs : ℤ) (fe_back sc_back : ℚ) (hcal_absorber hcal_active : String)
    (sensitive_active_only : Bool) (target_total_len_cm : ℚ) :
    ((build_triple_ecal_then_fe_scint_hcal_2m_v4_2 ecal_pairs pb_cm sc_cm
        pbwo4_cm add_scint_endcap ecal_pb ecal_scint ecal_pbwo4 trans_pairs
        fe_trans sc_trans mid_pairs fe_mid sc_mid back_pairs fe_back sc_back
        hcal_absorber hcal_active sensitive_active_only
        target_total_len_cm).1.layers
      = if target_total_len_cm - tripleBuiltLen ecal_pairs pb_cm sc_cm pbwo4_cm
            add_scint_endcap trans_pairs fe_trans sc_trans mid_pairs fe_mid
            sc_mid back_pairs fe_back sc_back > 1/1000000 then
          tripleBuiltLayers ecal_pairs pb_cm sc_cm pbwo4_cm add_scint_endcap
            ecal_pb ecal_scint ecal_pbwo4 trans_pairs fe_trans sc_trans
            mid_pairs fe_mid sc_mid back_pairs fe_back sc_back hcal_absorber
            hcal_active sensitive_active_only
          ++ [⟨target_total_len_cm - tripleBuiltLen ecal_pairs pb_cm sc_cm
               pbwo4_cm add_scint_endcap trans_pairs fe_trans sc_trans
               mid_pairs fe_mid sc_mid back_pairs fe_back sc_back,
               hcal_absorber, false⟩]
        else
          tripleBuiltLayers ecal_pairs pb_cm sc_cm pbwo4_cm add_scint_endcap
            ecal_pb ecal_scint ecal_pbwo4 trans_pairs fe_trans sc_trans
            mid_pairs fe_mid sc_mid back_pairs fe_back sc_back hcal_absorber
            hcal_active sensitive_active_only)
    ∧ specGet (build_triple_ecal_then_fe_scint_hcal_2m_v4_2 ecal_pairs pb_cm
        sc_cm pbwo4_cm add_scint_endcap ecal_pb ecal_scint ecal_pbwo4
        trans_pairs fe_trans sc_trans mid_pairs fe_mid sc_mid back_pairs
        fe_back sc_back hcal_absorber hcal_active sensitive_active_only
        target_total_len_cm).2 "total_len_cm"
      = some (SpecVal.num
          (if target_total_len_cm - tripleBuiltLen ecal_pairs pb_cm sc_cm
              pbwo4_cm add_scint_endcap trans_pairs fe_trans sc_trans
              mid_pairs fe_mid sc_mid back_pairs fe_back sc_back > 1/1000000
           then target_total_len_cm
           else tripleBuiltLen ecal_pairs pb_cm sc_cm pbwo4_cm
              add_scint_endcap trans_pairs fe_trans sc_trans mid_pairs fe_mid
              sc_mid back_pairs fe_back sc_back)) := by
  constructor
  · rw [triple_build_layers_eq]
    split_ifs
    · rfl
    · exact List.append_nil _
  · exact triple_build_total_eq ecal_pairs pb_cm sc_cm pbwo4_cm
      add_scint_endcap ecal_pb ecal_scint ecal_pbwo4 trans_pairs fe_trans
      sc_trans mid_pairs fe_mid sc_mid back_pairs fe_back sc_back
      hcal_absorber hcal_active sensitive_active_only target_total_len_cm

/-- C3: `CostTracker.add` raises exactly when the material is missing from the
price list or from the property table (with the Python error message of
`_check_material`), and a raise carries the ledger state unchanged — when both
lookups succeed the call returns normally, so a lookup never silently
defaults. -/
theorem add_unknown_material_spec (cat : Catalog) (ct : CostTracker)
    (m : String) (t : ℚ) (n : ℤ) :
    (cat.price m = none ∨ cat.props m = none →
      CostTracker.add cat ct m t n = .error (addErrMsg cat m, ct))
    ∧ ((cat.price m).isSome ∧ (cat.props m).isSome →
      ∃ ct2, CostTracker.add cat ct m t n = .ok ct2) := by
  constructor
  · intro h
    cases hp : cat.price m with
    | none => simp [CostTracker.add, addErrMsg, hp]
    | some r =>
      cases hq : cat.props m with
      | none => simp [CostTracker.add, addErrMsg, hp, hq]
      | some p =>
        rcases h with h | h
        · rw [hp] at h
          exact Option.noConfusion h
        · rw [hq] at h
          exact Option.noConfusion h
  · rintro ⟨h1, h2⟩
    obtain ⟨r, hr⟩ := Option.isSome_iff_exists.mp h1
    obtain ⟨p, hq⟩ := Option.isSome_iff_exists.mp h2
    exact ⟨_, add_ok cat ct m t n r p hr hq⟩

/-- Witness for C3: adding an unknown material on a fresh ledger raises the
unknown-material KeyError and carries the untouched ledger state. -/
theorem add_unknown_material_spec_witness :
    CostTracker.add defaultCatalog (CostTracker.init 1) "Adamantium" 1 1
      = .error (addErrMsg defaultCatalog "Adamantium", CostTracker.init 1) :=
  (add_unknown_material_spec defaultCatalog (CostTracker.init 1) "Adamantium"
    1 1).1 (Or.inl (by decide))

/-- C8: in the exact-length variant, a target shorter than the built stack
raises no error: no shim layer is appended, the builder returns normally, and
the reported `total_len_cm` is the built length, which exceeds the target. -/
theorem exact_length_variant_short_target (ecal_pairs : ℤ)
    (pb_cm sc_cm pbwo4_cm : ℚ) (add_scint_endcap : Bool)
    (ecal_pb ecal_scint ecal_pbwo4 : String) (trans_pairs : ℤ)
    (fe_trans sc_trans : ℚ) (mid_pairs : ℤ) (fe_mid sc_mid : ℚ)
    (back_pairs : ℤ) (fe_back sc_back : ℚ) (hcal_absorber hcal_active : String)
    (sensitive_active_only : Bool) (target_total_len_cm : ℚ)
    (hlt : target_total_len_cm < tripleBuiltLen ecal_pairs pb_cm sc_cm
      pbwo4_cm add_scint_endcap trans_pairs fe_trans sc_trans mid_pairs fe_mid
      sc_mid back_pairs fe_back sc_back) :
    (build_triple_ecal_then_fe_scint_hcal_2m_v4_2 ecal_pairs pb_cm sc_cm
        pbwo4_cm add_scint_endcap ecal_pb ecal_scint ecal_pbwo4 trans_pairs
        fe_trans sc_trans mid_pairs fe_mid sc_mid back_pairs fe_back sc_back
        hcal_absorber hcal_active sensitive_active_only
        target_total_len_cm).1.layers
      = tripleBuiltLayers ecal_pairs pb_cm sc_cm pbwo4_cm add_scint_endcap
          ecal_pb ecal_scint ecal_pbwo4 trans_pairs fe_trans sc_trans
          mid_pairs fe_mid sc_mid back_pairs fe_back sc_back hcal_absorber
          hcal_active sensitive_active_only
    ∧ specGet (build_triple_ecal_then_fe_scint_hcal_2m_v4_2 ecal_pairs pb_cm
        sc_cm pbwo4_cm add_scint_endcap ecal_pb ecal_scint ecal_pbwo4
        trans_pairs fe_trans sc_trans mid_pairs fe_mid sc_mid back_pairs
        fe_back sc_back hcal_absorber hcal_active sensitive_active_only
        target_total_len_cm).2 "total_len_cm"
      = some (SpecVal.num (tripleBuiltLen ecal_pairs pb_cm sc_cm pbwo4_cm
          add_scint_endcap trans_pairs fe_trans sc_trans mid_pairs fe_mid
          sc_mid back_pairs fe_back sc_back))
    ∧ target_total_len_cm < tripleBuiltLen ecal_pairs pb_cm sc_cm pbwo4_cm
        add_scint_endcap trans_pairs fe_trans sc_trans mid_pairs fe_mid sc_mid
        back_pairs fe_back sc_back := by
  have hc : ¬ (target_total_len_cm - tripleBuiltLen ecal_pairs pb_cm sc_cm
      pbwo4_cm add_scint_endcap trans_pairs fe_trans sc_trans mid_pairs fe_mid
      sc_mid back_pairs fe_back sc_back > 1/1000000) := by
    intro hgt
    have : (0 : ℚ) < 1/1000000 := by norm_num
    linarith
  refine ⟨?_, ?_, hlt⟩
  · rw [triple_build_layers_eq, if_neg hc, List.append_nil]
  · rw [triple_build_total_eq, if_neg hc]

/-- Witness for C8: the default variant C stack is 180 cm long; requesting a
100 cm target appends no shim and reports the built 180 cm length. -/
theorem exact_length_variant_short_target_witness :
    (build_triple_ecal_then_fe_scint_hcal_2m_v4_2 60 (3/20) (1/5) (1/10) true
        "G4_Pb" "G4_POLYSTYRENE" "G4_PbWO4" 8 (3/10) (6/5) 24 1 (7/10) 50
        (3/2) (1/2) "G4_Fe" "G4_POLYSTYRENE" true 100).1.layers
      = tripleBuiltLayers 60 (3/20) (1/5) (1/10) true "G4_Pb" "G4_POLYSTYRENE"
          "G4_PbWO4" 8 (3/10) (6/5) 24 1 (7/10) 50 (3/2) (1/2) "G4_Fe"
          "G4_POLYSTYRENE" true
    ∧ specGet (build_triple_ecal_then_fe_scint_hcal_2m_v4_2 60 (3/20) (1/5)
        (1/10) true "G4_Pb" "G4_POLYSTYRENE" "G4_PbWO4" 8 (3/10) (6/5) 24 1
        (7/10) 50 (3/2) (1/2) "G4_Fe" "G4_POLYSTYRENE" true 100).2
        "total_len_cm"
      = some (SpecVal.num (tripleBuiltLen 60 (3/20) (1/5) (1/10) true 8 (3/10)
          (6/5) 24 1 (7/10) 50 (3/2) (1/2)))
    ∧ (100 : ℚ) < tripleBuiltLen 60 (3/20) (1/5) (1/10) true 8 (3/10) (6/5)
        24 1 (7/10) 50 (3/2) (1/2) :=
  exact_length_variant_short_target 60 (3/20) (1/5) (1/10) true "G4_Pb"
    "G4_POLYSTYRENE" "G4_PbWO4" 8 (3/10) (6/5) 24 1 (7/10) 50 (3/2) (1/2)
    "G4_Fe" "G4_POLYSTYRENE" true 100
    (by norm_num [tripleBuiltLen, tripleEcalLen])

/-- C4 (amended): for every design variant, whenever the section period counts
are nonnegative and (for variant A) ecal_slices is positive — the domain on
which Python's loops and float division behave as the closed forms assume —
the specs value `total_len_cm` equals the sum of `layer.thickness_cm` over the
returned geometry, exactly in exact arithmetic. With a negative period count
the closed-form total and the layer sum diverge (see the counterexample). -/
theorem variants_total_len_eq_layer_sum
    (a_tX a_x0 : ℚ) (a_es : ℤ) (a_mat : String) (a_fp : ℤ) (a_ff a_sf : ℚ)
    (a_mp : ℤ) (a_fm a_sm : ℚ) (a_bp : ℤ) (a_fb a_sb : ℚ)
    (a_ab a_ac : String) (a_sens : Bool)
    (b_ep : ℤ) (b_pb b_sc : ℚ) (b_eab b_eac : String) (b_fp : ℤ)
    (b_ff b_sf : ℚ) (b_mp : ℤ) (b_fm b_sm : ℚ) (b_bp : ℤ) (b_fb b_sb : ℚ)
    (b_ab b_ac : String) (b_sens : Bool)
    (c_ep : ℤ) (c_pb c_sc c_pw : ℚ) (c_cap : Bool)
    (c_mp c_ms c_mw : String) (c_tp : ℤ) (c_ft c_st : ℚ) (c_mq : ℤ)
    (c_fm c_sm : ℚ) (c_bq : ℤ) (c_fb c_sb : ℚ) (c_ab c_ac : String)
    (c_sens : Bool) (c_tgt : ℚ)
    (ha0 : 0 < a_es) (ha1 : 0 ≤ a_fp) (ha2 : 0 ≤ a_mp) (ha3 : 0 ≤ a_bp)
    (hb0 : 0 ≤ b_ep) (hb1 : 0 ≤ b_fp) (hb2 : 0 ≤ b_mp) (hb3 : 0 ≤ b_bp)
    (hc0 : 0 ≤ c_ep) (hc1 : 0 ≤ c_tp) (hc2 : 0 ≤ c_mq) (hc3 : 0 ≤ c_bq) :
    specGet (build_ecal_pbwo4_26X0_then_graded_fe_scint_hcal_200cm_v1 a_tX
        a_x0 a_es a_mat a_fp a_ff a_sf a_mp a_fm a_sm a_bp a_fb a_sb a_ab a_ac
        a_sens).2 "total_len_cm"
      = some (SpecVal.num (sumThick
          (build_ecal_pbwo4_26X0_then_graded_fe_scint_hcal_200cm_v1 a_tX a_x0
            a_es a_mat a_fp a_ff a_sf a_mp a_fm a_sm a_bp a_fb a_sb a_ab a_ac
            a_sens).1.layers))
    ∧ specGet (build_pb_scint_ecal_then_graded_fe_scint_hcal_200cm_v2 b_ep
        b_pb b_sc b_eab b_eac b_fp b_ff b_sf b_mp b_fm b_sm b_bp b_fb b_sb
        b_ab b_ac b_sens).2 "total_len_cm"
      = some (SpecVal.num (sumThick
          (build_pb_scint_ecal_then_graded_fe_scint_hcal_200cm_v2 b_ep b_pb
            b_sc b_eab b_eac b_fp b_ff b_sf b_mp b_fm b_sm b_bp b_fb b_sb b_ab
            b_ac b_sens).1.layers))
    ∧ specGet (build_triple_ecal_then_fe_scint_hcal_2m_v4_2 c_ep c_pb c_sc
        c_pw c_cap c_mp c_ms c_mw c_tp c_ft c_st c_mq c_fm c_sm c_bq c_fb
        c_sb c_ab c_ac c_sens c_tgt).2 "total_len_cm"
      = some (SpecVal.num (sumThick
          (build_triple_ecal_then_fe_scint_hcal_2m_v4_2 c_ep c_pb c_sc c_pw
            c_cap c_mp c_ms c_mw c_tp c_ft c_st c_mq c_fm c_sm c_bq c_fb c_sb
            c_ab c_ac c_sens c_tgt).1.layers)) :=
  ⟨v1_total_eq_sum a_tX a_x0 a_es a_mat a_fp a_ff a_sf a_mp a_fm a_sm a_bp
     a_fb a_sb a_ab a_ac a_sens ha0 ha1 ha2 ha3,
   v2_total_eq_sum b_ep b_pb b_sc b_eab b_eac b_fp b_ff b_sf b_mp b_fm b_sm
     b_bp b_fb b_sb b_ab b_ac b_sens hb0 hb1 hb2 hb3,
   v3_total_eq_sum c_ep c_pb c_sc c_pw c_cap c_mp c_ms c_mw c_tp c_ft c_st
     c_mq c_fm c_sm c_bq c_fb c_sb c_ab c_ac c_sens c_tgt hc0 hc1 hc2 hc3⟩

/-- Witness for C4: the amended theorem applied at all three variants' default
parameters; stated here for variant A's conclusion. -/
theorem variants_total_len_eq_layer_sum_witness :
    specGet (build_ecal_pbwo4_26X0_then_graded_fe_scint_hcal_200cm_v1 26
        (89/100) 30 "G4_PbWO4" 16 (4/5) (4/5) 32 (6/5) (3/5) 47 (3/2) (1/2)
        "G4_Fe" "G4_POLYSTYRENE" true).2 "total_len_cm"
      = some (SpecVal.num (sumThick
          (build_ecal_pbwo4_26X0_then_graded_fe_scint_hcal_200cm_v1 26
            (89/100) 30 "G4_PbWO4" 16 (4/5) (4/5) 32 (6/5) (3/5) 47 (3/2)
            (1/2) "G4_Fe" "G4_POLYSTYRENE" true).1.layers)) :=
  (variants_total_len_eq_layer_sum 26 (89/100) 30 "G4_PbWO4" 16 (4/5) (4/5)
    32 (6/5) (3/5) 47 (3/2) (1/2) "G4_Fe" "G4_POLYSTYRENE" true
    60 (1/5) (1/5) "G4_Pb" "G4_POLYSTYRENE" 18 (1/2) 1 28 1 (7/10) 50 (3/2)
    (1/2) "G4_Fe" "G4_POLYSTYRENE" true
    60 (3/20) (1/5) (1/10) true "G4_Pb" "G4_POLYSTYRENE" "G4_PbWO4" 8 (3/10)
    (6/5) 24 1 (7/10) 50 (3/2) (1/2) "G4_Fe" "G4_POLYSTYRENE" true 200
    (by decide) (by decide) (by decide) (by decide) (by decide) (by decide)
    (by decide) (by decide) (by decide) (by decide) (by decide)
    (by decide)).1

/-- Counterexample for C4 as frozen ("every choice of parameters"): with
front_pairs = -1 variant A's closed-form total subtracts 1.6 cm for the
negative section while the loop appends no layers for it, so the specs
total_len_cm (173.14) differs from the layer sum (174.74). -/
theorem variants_total_len_cex :
    specGet (build_ecal_pbwo4_26X0_then_graded_fe_scint_hcal_200cm_v1 26
        (89/100) 30 "G4_PbWO4" (-1) (4/5) (4/5) 32 (6/5) (3/5) 47 (3/2) (1/2)
        "G4_Fe" "G4_POLYSTYRENE" true).2 "total_len_cm"
      ≠ some (SpecVal.num (sumThick
          (build_ecal_pbwo4_26X0_then_graded_fe_scint_hcal_200cm_v1 26
            (89/100) 30 "G4_PbWO4" (-1) (4/5) (4/5) 32 (6/5) (3/5) 47 (3/2)
            (1/2) "G4_Fe" "G4_POLYSTYRENE" true).1.layers)) := by
  have ha : specGet (build_ecal_pbwo4_26X0_then_graded_fe_scint_hcal_200cm_v1
      26 (89/100) 30 "G4_PbWO4" (-1) (4/5) (4/5) 32 (6/5) (3/5) 47 (3/2)
      (1/2) "G4_Fe" "G4_POLYSTYRENE" true).2 "total_len_cm"
      = some (SpecVal.num ((26 : ℚ) * (89/100) + (((-1 : ℤ) : ℚ) * (4/5 + 4/5)
          + ((32 : ℤ) : ℚ) * (6/5 + 3/5) + ((47 : ℤ) : ℚ) * (3/2 + 1/2)))) :=
    rfl
  have hL : (build_ecal_pbwo4_26X0_then_graded_fe_scint_hcal_200cm_v1 26
      (89/100) 30 "G4_PbWO4" (-1) (4/5) (4/5) 32 (6/5) (3/5) 47 (3/2) (1/2)
      "G4_Fe" "G4_POLYSTYRENE" true).1.layers
      = List.flatten (List.replicate (30 : ℤ).toNat
          [⟨(26 : ℚ) * (89/100) / ((30 : ℤ) : ℚ), "G4_PbWO4", true⟩])
        ++ (sectionLayers (-1) (4/5) "G4_Fe" (4/5) "G4_POLYSTYRENE" true
            ++ sectionLayers 32 (6/5) "G4_Fe" (3/5) "G4_POLYSTYRENE" true
            ++ sectionLayers 47 (3/2) "G4_Fe" (1/2) "G4_POLYSTYRENE" true) :=
    rfl
  have hs : sumThick (build_ecal_pbwo4_26X0_then_graded_fe_scint_hcal_200cm_v1
      26 (89/100) 30 "G4_PbWO4" (-1) (4/5) (4/5) 32 (6/5) (3/5) 47 (3/2)
      (1/2) "G4_Fe" "G4_POLYSTYRENE" true).1.layers = 8737/50 := by
    rw [hL, sumThick_append, sumThick_append, sumThick_append,
      sumThick_flatten_replicate, sumThick_section, sumThick_section,
      sumThick_section, sumThick_cons, sumThick_nil]
    have e30 : ((30 : ℤ).toNat : ℕ) = 30 := rfl
    have em1 : (((-1) : ℤ).toNat : ℕ) = 0 := rfl
    have e32 : ((32 : ℤ).toNat : ℕ) = 32 := rfl
    have e47 : ((47 : ℤ).toNat : ℕ) = 47 := rfl
    rw [e30, em1, e32, e47]
    norm_num
  rw [ha, hs]
  simp only [ne_eq, Option.some.injEq, SpecVal.num.injEq]
  norm_num

/-- C6 (amended): only variant A's returned specs mapping contains the λI
budget quantities (`ecal_lambda`, `hcal_lambda`, `total_lambda`); the specs of
variants B and C contain none of them, for every choice of parameters. -/
theorem lambda_keys_only_variant_a
    (a_tX a_x0 : ℚ) (a_es : ℤ) (a_mat : String) (a_fp : ℤ) (a_ff a_sf : ℚ)
    (a_mp : ℤ) (a_fm a_sm : ℚ) (a_bp : ℤ) (a_fb a_sb : ℚ)
    (a_ab a_ac : String) (a_sens : Bool)
    (b_ep : ℤ) (b_pb b_sc : ℚ) (b_eab b_eac : String) (b_fp : ℤ)
    (b_ff b_sf : ℚ) (b_mp : ℤ) (b_fm b_sm : ℚ) (b_bp : ℤ) (b_fb b_sb : ℚ)
    (b_ab b_ac : String) (b_sens : Bool)
    (c_ep : ℤ) (c_pb c_sc c_pw : ℚ) (c_cap : Bool)
    (c_mp c_ms c_mw : String) (c_tp : ℤ) (c_ft c_st : ℚ) (c_mq : ℤ)
    (c_fm c_sm : ℚ) (c_bq : ℤ) (c_fb c_sb : ℚ) (c_ab c_ac : String)
    (c_sens : Bool) (c_tgt : ℚ) :
    (specGet (build_ecal_pbwo4_26X0_then_graded_fe_scint_hcal_200cm_v1 a_tX
        a_x0 a_es a_mat a_fp a_ff a_sf a_mp a_fm a_sm a_bp a_fb a_sb a_ab a_ac
        a_sens).2 "ecal_lambda").isSome = true
    ∧ (specGet (build_ecal_pbwo4_26X0_then_graded_fe_scint_hcal_200cm_v1 a_tX
        a_x0 a_es a_mat a_fp a_ff a_sf a_mp a_fm a_sm a_bp a_fb a_sb a_ab a_ac
        a_sens).2 "hcal_lambda").isSome = true
    ∧ (specGet (build_ecal_pbwo4_26X0_then_graded_fe_scint_hcal_200cm_v1 a_tX
        a_x0 a_es a_mat a_fp a_ff a_sf a_mp a_fm a_sm a_bp a_fb a_sb a_ab a_ac
        a_sens).2 "total_lambda").isSome = true
    ∧ specGet (build_pb_scint_ecal_then_graded_fe_scint_hcal_200cm_v2 b_ep
        b_pb b_sc b_eab b_eac b_fp b_ff b_sf b_mp b_fm b_sm b_bp b_fb b_sb
        b_ab b_ac b_sens).2 "ecal_lambda" = none
    ∧ specGet (build_pb_scint_ecal_then_graded_fe_scint_hcal_200cm_v2 b_ep
        b_pb b_sc b_eab b_eac b_fp b_ff b_sf b_mp b_fm b_sm b_bp b_fb b_sb
        b_ab b_ac b_sens).2 "hcal_lambda" = none
    ∧ specGet (build_pb_scint_ecal_then_graded_fe_scint_hcal_200cm_v2 b_ep
        b_pb b_sc b_eab b_eac b_fp b_ff b_sf b_mp b_fm b_sm b_bp b_fb b_sb
        b_ab b_ac b_sens).2 "total_lambda" = none
    ∧ specGet (build_triple_ecal_then_fe_scint_hcal_2m_v4_2 c_ep c_pb c_sc
        c_pw c_cap c_mp c_ms c_mw c_tp c_ft c_st c_mq c_fm c_sm c_bq c_fb
        c_sb c_ab c_ac c_sens c_tgt).2 "ecal_lambda" = none
    ∧ specGet (build_triple_ecal_then_fe_scint_hcal_2m_v4_2 c_ep c_pb c_sc
        c_pw c_cap c_mp c_ms c_mw c_tp c_ft c_st c_mq c_fm c_sm c_bq c_fb
        c_sb c_ab c_ac c_sens c_tgt).2 "hcal_lambda" = none
    ∧ specGet (build_triple_ecal_then_fe_scint_hcal_2m_v4_2 c_ep c_pb c_sc
        c_pw c_cap c_mp c_ms c_mw c_tp c_ft c_st c_mq c_fm c_sm c_bq c_fb
        c_sb c_ab c_ac c_sens c_tgt).2 "total_lambda" = none :=
  ⟨rfl, rfl, rfl, rfl, rfl, rfl, rfl, rfl, rfl⟩

/-- Counterexample for C6 as frozen: variant B at its default parameters
returns a specs mapping with no λI quantities at all — none of
`total_lambda`, `ecal_lambda`, `hcal_lambda` is present. -/
theorem lambda_keys_variant_b_cex :
    specGet (build_pb_scint_ecal_then_graded_fe_scint_hcal_200cm_v2 60 (1/5)
        (1/5) "G4_Pb" "G4_POLYSTYRENE" 18 (1/2) 1 28 1 (7/10) 50 (3/2) (1/2)
        "G4_Fe" "G4_POLYSTYRENE" true).2 "total_lambda" = none
    ∧ specGet (build_pb_scint_ecal_then_graded_fe_scint_hcal_200cm_v2 60 (1/5)
        (1/5) "G4_Pb" "G4_POLYSTYRENE" 18 (1/2) 1 28 1 (7/10) 50 (3/2) (1/2)
        "G4_Fe" "G4_POLYSTYRENE" true).2 "ecal_lambda" = none
    ∧ specGet (build_pb_scint_ecal_then_graded_fe_scint_hcal_200cm_v2 60 (1/5)
        (1/5) "G4_Pb" "G4_POLYSTYRENE" 18 (1/2) 1 28 1 (7/10) 50 (3/2) (1/2)
        "G4_Fe" "G4_POLYSTYRENE" true).2 "hcal_lambda" = none :=
  ⟨rfl, rfl, rfl⟩

/-- C7: variant B at its default parameters reports `ecal_len_cm` equal to
24.0 exactly and `total_len_cm` equal to 993/5 = 198.6. -/
theorem variant_b_defaults_concrete :
    specGet (build_pb_scint_ecal_then_graded_fe_scint_hcal_200cm_v2 60 (1/5)
        (1/5) "G4_Pb" "G4_POLYSTYRENE" 18 (1/2) 1 28 1 (7/10) 50 (3/2) (1/2)
        "G4_Fe" "G4_POLYSTYRENE" true).2 "ecal_len_cm"
      = some (SpecVal.num 24)
    ∧ specGet (build_pb_scint_ecal_then_graded_fe_scint_hcal_200cm_v2 60 (1/5)
        (1/5) "G4_Pb" "G4_POLYSTYRENE" 18 (1/2) 1 28 1 (7/10) 50 (3/2) (1/2)
        "G4_Fe" "G4_POLYSTYRENE" true).2 "total_len_cm"
      = some (SpecVal.num (993/5)) := by
  constructor
  · have ha : specGet (build_pb_scint_ecal_then_graded_fe_scint_hcal_200cm_v2
        60 (1/5) (1/5) "G4_Pb" "G4_POLYSTYRENE" 18 (1/2) 1 28 1 (7/10) 50
        (3/2) (1/2) "G4_Fe" "G4_POLYSTYRENE" true).2 "ecal_len_cm"
        = some (SpecVal.num (((60 : ℤ) : ℚ) * (1/5 + 1/5))) := rfl
    rw [ha]
    norm_num
  · have hb : specGet (build_pb_scint_ecal_then_graded_fe_scint_hcal_200cm_v2
        60 (1/5) (1/5) "G4_Pb" "G4_POLYSTYRENE" 18 (1/2) 1 28 1 (7/10) 50
        (3/2) (1/2) "G4_Fe" "G4_POLYSTYRENE" true).2 "total_len_cm"
        = some (SpecVal.num (((60 : ℤ) : ℚ) * (1/5 + 1/5)
            + (((18 : ℤ) : ℚ) * (1/2 + 1) + ((28 : ℤ) : ℚ) * (1 + 7/10)
               + ((50 : ℤ) : ℚ) * (3/2 + 1/2)))) := rfl
    rw [hb]
    norm_num

/-- C5: `set_price` and `set_material_props` return the tracker unchanged
(they write only the catalog), so every already-accumulated per-material and
total value is untouched; an `add` performed after the override converts with
the newly effective catalog values — cost from the new price, X0/λI units
from the new lengths — i.e. the values in effect at accumulation time. -/
theorem override_frame_and_subsequent_add (cat : Catalog) (ct : CostTracker)
    (m : String) (v x0v liv t : ℚ) (n : ℤ) (ct1 ct2 : CostTracker) :
    (CostTracker.set_price cat ct m v).2 = ct
    ∧ (CostTracker.set_material_props cat ct m x0v liv).2 = ct
    ∧ (CostTracker.add (CostTracker.set_price cat ct m v).1 ct m t n
          = .ok ct1 →
        ct1.total_cost_chf
          = ct.total_cost_chf + t * (n : ℚ) * ct.area_m2 * v)
    ∧ (CostTracker.add (CostTracker.set_material_props cat ct m x0v liv).1 ct
          m t n = .ok ct2 →
        ct2.total_X0 = ct.total_X0 + t * (n : ℚ) / x0v
        ∧ ct2.total_lambdaI = ct.total_lambdaI + t * (n : ℚ) / liv) := by
  refine ⟨rfl, rfl, ?_, ?_⟩
  · intro h
    have hp : (CostTracker.set_price cat ct m v).1.price m = some v := by
      simp [CostTracker.set_price]
    cases hq : (CostTracker.set_price cat ct m v).1.props m with
    | none =>
      have herr : CostTracker.add (CostTracker.set_price cat ct m v).1 ct m t
          n = .error ("Missing MATERIAL_PROP entry for: " ++ m, ct) := by
        simp [CostTracker.add, hp, hq]
      rw [herr] at h
      exact Except.noConfusion h
    | some p =>
      rw [add_ok _ ct m t n v p hp hq] at h
      injection h with h
      subst h
      rfl
  · intro h
    have hp : (CostTracker.set_material_props cat ct m x0v liv).1.props m
        = some ⟨x0v, liv⟩ := by
      simp [CostTracker.set_material_props]
    cases hq : (CostTracker.set_material_props cat ct m x0v liv).1.price m
      with
    | none =>
      have herr : CostTracker.add (CostTracker.set_material_props cat ct m x0v
          liv).1 ct m t n
          = .error ("Unknown material for cost model: " ++ m, ct) := by
        simp [CostTracker.add, hq]
      rw [herr] at h
      exact Except.noConfusion h
    | some r =>
      rw [add_ok _ ct m t n r ⟨x0v, liv⟩ hq hp] at h
      injection h with h
      subst h
      exact ⟨rfl, rfl⟩

/-- Witness for C5: after overriding the Fe price to 7 (resp. its lengths to
X0 = 2, λI = 4) on a fresh unit-area ledger, the next add of 2 cm with count 3
accrues cost 2*3*1*7 (resp. 2*3/2 X0-units and 2*3/4 λI-units). -/
theorem override_frame_and_subsequent_add_witness :
    (outState (CostTracker.add
        (CostTracker.set_price defaultCatalog (CostTracker.init 1) "G4_Fe"
          7).1 (CostTracker.init 1) "G4_Fe" 2 3)).total_cost_chf
      = (CostTracker.init 1).total_cost_chf
        + 2 * ((3 : ℤ) : ℚ) * (CostTracker.init 1).area_m2 * 7
    ∧ (outState (CostTracker.add
        (CostTracker.set_material_props defaultCatalog (CostTracker.init 1)
          "G4_Fe" 2 4).1 (CostTracker.init 1) "G4_Fe" 2 3)).total_X0
      = (CostTracker.init 1).total_X0 + 2 * ((3 : ℤ) : ℚ) / 2
    ∧ (outState (CostTracker.add
        (CostTracker.set_material_props defaultCatalog (CostTracker.init 1)
          "G4_Fe" 2 4).1 (CostTracker.init 1) "G4_Fe" 2 3)).total_lambdaI
      = (CostTracker.init 1).total_lambdaI + 2 * ((3 : ℤ) : ℚ) / 4 :=
  ⟨(override_frame_and_subsequent_add defaultCatalog (CostTracker.init 1)
      "G4_Fe" 7 2 4 2 3
      (outState (CostTracker.add
        (CostTracker.set_price defaultCatalog (CostTracker.init 1) "G4_Fe"
          7).1 (CostTracker.init 1) "G4_Fe" 2 3))
      (outState (CostTracker.add
        (CostTracker.set_material_props defaultCatalog (CostTracker.init 1)
          "G4_Fe" 2 4).1 (CostTracker.init 1) "G4_Fe" 2 3))).2.2.1 rfl,
   ((override_frame_and_subsequent_add defaultCatalog (CostTracker.init 1)
      "G4_Fe" 7 2 4 2 3
      (outState (CostTracker.add
        (CostTracker.set_price defaultCatalog (CostTracker.init 1) "G4_Fe"
          7).1 (CostTracker.init 1) "G4_Fe" 2 3))
      (outState (CostTracker.add
        (CostTracker.set_material_props defaultCatalog (CostTracker.init 1)
          "G4_Fe" 2 4).1 (CostTracker.init 1) "G4_Fe" 2 3))).2.2.2 rfl).1,
   ((override_frame_and_subsequent_add defaultCatalog (CostTracker.init 1)
      "G4_Fe" 7 2 4 2 3
      (outState (CostTracker.add
        (CostTracker.set_price defaultCatalog (CostTracker.init 1) "G4_Fe"
          7).1 (CostTracker.init 1) "G4_Fe" 2 3))
      (outState (CostTracker.add
        (CostTracker.set_material_props defaultCatalog (CostTracker.init 1)
          "G4_Fe" 2 4).1 (CostTracker.init 1) "G4_Fe" 2 3))).2.2.2 rfl).2⟩

/-- C9: for valid materials and any count n >= 1, a single multiplied
accumulation per material (`add_pair`) and n repetitions of unit
accumulations (`add_period` on the two-entry period) leave the tracker in the
same state. -/
theorem add_pair_equiv_add_period (cat : Catalog) (ct : CostTracker)
    (m1 : String) (t1 : ℚ) (m2 : String) (t2 : ℚ) (n : ℤ) (hn : 1 ≤ n)
    (h1 : (cat.price m1).isSome = true) (h2 : (cat.props m1).isSome = true)
    (h3 : (cat.price m2).isSome = true) (h4 : (cat.props m2).isSome = true) :
    CostTracker.add_pair cat ct (m1, t1, m2, t2) n
      = CostTracker.add_period cat ct [(m1, t1), (m2, t2)] n := by
  obtain ⟨r1, e1⟩ := Option.isSome_iff_exists.mp h1
  obtain ⟨p1, e2⟩ := Option.isSome_iff_exists.mp h2
  obtain ⟨r2, e3⟩ := Option.isSome_iff_exists.mp h3
  obtain ⟨p2, e4⟩ := Option.isSome_iff_exists.mp h4
  have hcoh : m1 = m2 → r1 = r2 ∧ p1 = p2 := by
    intro hm
    subst hm
    exact ⟨Option.some.inj (e1.symm.trans e3),
      Option.some.inj (e2.symm.trans e4)⟩
  obtain ⟨j, hj⟩ : ∃ j : ℕ, n.toNat = j + 1 := ⟨n.toNat - 1, by omega⟩
  have hcast : (n : ℚ) = (j : ℚ) + 1 := by
    have hz : ((n.toNat : ℕ) : ℤ) = n := Int.toNat_of_nonneg (by omega)
    have h5 : ((j : ℤ) + 1 : ℤ) = n := by
      rw [← hz, hj]
      push_cast
      ring
    calc (n : ℚ) = (((j : ℤ) + 1 : ℤ) : ℚ) := by rw [h5]
    _ = (j : ℚ) + 1 := by push_cast; ring
  rw [add_pair_ok cat ct m1 t1 m2 t2 n r1 p1 r2 p2 e1 e2 e3 e4]
  unfold CostTracker.add_period
  rw [hj, addPeriodAux_pair_ok cat m1 m2 t1 t2 r1 r2 p1 p2 ct.area_m2 e1 e2 e3
    e4 hcoh j ct rfl, hcast]

/-- Witness for C9: Fe/polystyrene pair with count 2 on a fresh unit-area
ledger: both accumulation paths give the same state. -/
theorem add_pair_equiv_add_period_witness :
    CostTracker.add_pair defaultCatalog (CostTracker.init 1)
        ("G4_Fe", 1/2, "G4_POLYSTYRENE", 3/10) 2
      = CostTracker.add_period defaultCatalog (CostTracker.init 1)
          [("G4_Fe", 1/2), ("G4_POLYSTYRENE", 3/10)] 2 :=
  add_pair_equiv_add_period defaultCatalog (CostTracker.init 1) "G4_Fe" (1/2)
    "G4_POLYSTYRENE" (3/10) 2 (by decide) rfl rfl rfl rfl

/-- C10: `add(material, thickness, count = 0)` on a catalog-known material not
yet tracked leaves all four totals unchanged, yet creates zero-valued
per-material accumulator entries, so the material appears in the summary
material list and its summary row reports all accumulated quantities as 0. -/
theorem add_count_zero_creates_zero_entries (cat : Catalog) (ct : CostTracker)
    (m : String) (t : ℚ) (r : ℚ) (p : MatProps) (ct2 : CostTracker)
    (h1 : cat.price m = some r) (h2 : cat.props m = some p)
    (f1 : m ∉ ct.by_material_cm.map Prod.fst)
    (f2 : m ∉ ct.by_material_chf.map Prod.fst)
    (f3 : m ∉ ct.by_material_X0.map Prod.fst)
    (f4 : m ∉ ct.by_material_lambdaI.map Prod.fst)
    (h : CostTracker.add cat ct m t 0 = .ok ct2) :
    ct2.total_length_cm = ct.total_length_cm
    ∧ ct2.total_cost_chf = ct.total_cost_chf
    ∧ ct2.total_X0 = ct.total_X0
    ∧ ct2.total_lambdaI = ct.total_lambdaI
    ∧ m ∈ summaryMats ct2
    ∧ summaryRow cat ct2 m
      = some ⟨0, 0, 0, 0, r, p.X0_cm, p.lambdaI_cm⟩ := by
  rw [add_ok cat ct m t 0 r p h1 h2] at h
  injection h with h
  subst h
  have ht : t * ((0 : ℤ) : ℚ) = 0 := by push_cast; ring
  refine ⟨by simp [applyAdd, ht], by simp [applyAdd, ht],
    by simp [applyAdd, ht], by simp [applyAdd, ht], ?_, ?_⟩
  · unfold summaryMats
    rw [mem_sortStrings, List.mem_dedup]
    refine List.mem_append.mpr (Or.inl ?_)
    refine List.mem_append.mpr (Or.inl ?_)
    refine List.mem_append.mpr (Or.inl ?_)
    exact mem_keys_bump_self _ _ _
  · simp only [summaryRow, applyAdd, h1, h2]
    rw [getD0_bump_self_fresh _ _ _ f1, getD0_bump_self_fresh _ _ _ f2,
      getD0_bump_self_fresh _ _ _ f3, getD0_bump_self_fresh _ _ _ f4, ht]
    norm_num

/-- Witness for C10: a fresh unit-area ledger, `add("G4_W", 5, count=0)`: all
totals stay 0, tungsten enters the summary material list, and its summary row
reports zero length, X0-units, λI-units and cost next to the catalog values
6000 CHF, X0 = 0.35 cm, λI = 9.6 cm. -/
theorem add_count_zero_creates_zero_entries_witness :
    (outState (CostTracker.add defaultCatalog (CostTracker.init 1) "G4_W" 5
        0)).total_length_cm = (CostTracker.init 1).total_length_cm
    ∧ (outState (CostTracker.add defaultCatalog (CostTracker.init 1) "G4_W" 5
        0)).total_cost_chf = (CostTracker.init 1).total_cost_chf
    ∧ (outState (CostTracker.add defaultCatalog (CostTracker.init 1) "G4_W" 5
        0)).total_X0 = (CostTracker.init 1).total_X0
    ∧ (outState (CostTracker.add defaultCatalog (CostTracker.init 1) "G4_W" 5
        0)).total_lambdaI = (CostTracker.init 1).total_lambdaI
    ∧ "G4_W" ∈ summaryMats (outState (CostTracker.add defaultCatalog
        (CostTracker.init 1) "G4_W" 5 0))
    ∧ summaryRow defaultCatalog (outState (CostTracker.add defaultCatalog
        (CostTracker.init 1) "G4_W" 5 0)) "G4_W"
      = some ⟨0, 0, 0, 0, 6000, 7/20, 48/5⟩ :=
  add_count_zero_creates_zero_entries defaultCatalog (CostTracker.init 1)
    "G4_W" 5 6000 ⟨7/20, 48/5⟩
    (outState (CostTracker.add defaultCatalog (CostTracker.init 1) "G4_W" 5
      0)) rfl rfl (by simp [CostTracker.init]) (by simp [CostTracker.init])
    (by simp [CostTracker.init]) (by simp [CostTracker.init]) rfl
